import Mathlib

/-!
Verification of `documents/Thermistors/thermistors.py`: Steinhart-Hart
thermistor model, coefficient fitting, ADC divider math and significant-digit
rounding.  Python floats are modelled as real numbers; Python exceptions
(ValueError from `math` domain errors, ZeroDivisionError, IndexError,
TypeError) are modelled with an `Except` monad.  Python `round` (both
`round(x)` and `round(x, n)`) rounds to the nearest integer / nearest multiple
of `10^(-n)` with ties to even, modelled by `rhe` below.
-/

namespace Thermistors

/-- Python exception classes that the script can raise. -/
inductive PyErr
  | valueError    -- math domain error (log or sqrt of an out-of-range value)
  | zeroDivision  -- float division by zero
  | indexError    -- list index out of range
  | typeError     -- e.g. math.isfinite applied to a list, or complex arithmetic
deriving DecidableEq

/-- Round half to even (Python round to nearest integer). -/
noncomputable def rhe (x : ℝ) : ℤ :=
  if Int.fract x < 1/2 then ⌊x⌋
  else if 1/2 < Int.fract x then ⌊x⌋ + 1
  else if Even ⌊x⌋ then ⌊x⌋ else ⌊x⌋ + 1

/-- Python round(x, n): nearest multiple of 10^(-n), ties to even. -/
noncomputable def pyRound (x : ℝ) (n : ℤ) : ℝ :=
  (rhe (x * (10:ℝ)^n)) * (10:ℝ)^(-n)

/-- signif(x, digits): round x to a number of significant digits.  The source
guards on x being zero or non-finite; real numbers are always finite, so only
the zero guard remains.  Otherwise the source takes
digits -= ceil(log10(abs(x))) and rounds to that many decimals. -/
noncomputable def signif (x : ℝ) (digits : ℤ) : ℝ :=
  if x = 0 then x else pyRound x (digits - ⌈Real.logb 10 |x|⌉)

/-- degFtoC for a single number. -/
noncomputable def degFtoC (f : ℝ) : ℝ := (f - 32) * 5 / 9

/-- degCtoF for a single number. -/
noncomputable def degCtoF (c : ℝ) : ℝ := c * 9 / 5 + 32

/-- degCtoK for a single number. -/
noncomputable def degCtoK (c : ℝ) : ℝ := c + 273.15

/-- degKtoC for a single number. -/
noncomputable def degKtoC (k : ℝ) : ℝ := k - 273.15

theorem rhe_lt_half (x : ℝ) (h : Int.fract x < 1/2) : rhe x = ⌊x⌋ := by
  unfold rhe
  rw [if_pos h]

theorem rhe_gt_half (x : ℝ) (h : 1/2 < Int.fract x) : rhe x = ⌊x⌋ + 1 := by
  unfold rhe
  rw [if_neg (by linarith), if_pos h]

theorem rhe_half_even (x : ℝ) (h : Int.fract x = 1/2) (he : Even ⌊x⌋) : rhe x = ⌊x⌋ := by
  unfold rhe
  rw [if_neg (by rw [h]; exact lt_irrefl _), if_neg (by rw [h]; exact lt_irrefl _), if_pos he]

theorem rhe_half_odd (x : ℝ) (h : Int.fract x = 1/2) (he : ¬ Even ⌊x⌋) : rhe x = ⌊x⌋ + 1 := by
  unfold rhe
  rw [if_neg (by rw [h]; exact lt_irrefl _), if_neg (by rw [h]; exact lt_irrefl _), if_neg he]

theorem rhe_intCast (n : ℤ) : rhe (n : ℝ) = n := by
  rw [rhe_lt_half, Int.floor_intCast]
  rw [Int.fract_intCast]
  norm_num

theorem le_rhe (x : ℝ) : x - 1/2 ≤ (rhe x : ℝ) := by
  have hf : Int.fract x = x - ⌊x⌋ := (Int.self_sub_floor x).symm
  have hf1 : Int.fract x < 1 := Int.fract_lt_one x
  rcases lt_trichotomy (Int.fract x) (1/2) with h | h | h
  · rw [rhe_lt_half x h]
    rw [hf] at h
    linarith
  · rw [hf] at h
    rcases Int.even_or_odd ⌊x⌋ with he | ho
    · rw [rhe_half_even x (by rw [hf, ← h]) he]
      linarith
    · rw [rhe_half_odd x (by rw [hf, ← h]) (by rwa [Int.not_even_iff_odd])]
      push_cast
      linarith
  · rw [rhe_gt_half x h]
    rw [hf] at h hf1
    push_cast
    linarith

theorem rhe_le (x : ℝ) : (rhe x : ℝ) ≤ x + 1/2 := by
  have hf : Int.fract x = x - ⌊x⌋ := (Int.self_sub_floor x).symm
  have hf0 : 0 ≤ Int.fract x := Int.fract_nonneg x
  rcases lt_trichotomy (Int.fract x) (1/2) with h | h | h
  · rw [rhe_lt_half x h]
    rw [hf] at hf0
    linarith
  · rcases Int.even_or_odd ⌊x⌋ with he | ho
    · rw [rhe_half_even x h he]
      rw [hf] at h
      linarith
    · rw [rhe_half_odd x h (by rwa [Int.not_even_iff_odd])]
      rw [hf] at h
      push_cast
      linarith
  · rw [rhe_gt_half x h]
    rw [hf] at h
    push_cast
    linarith

theorem rhe_eq_of_bounds (x : ℝ) (n : ℤ) (h1 : (n:ℝ) - 1/2 < x) (h2 : x < (n:ℝ) + 1/2) :
    rhe x = n := by
  rcases le_or_lt (n:ℝ) x with hc | hc
  · have hfl : ⌊x⌋ = n := by
      apply Int.floor_eq_iff.mpr
      exact ⟨hc, by linarith⟩
    have hfr : Int.fract x < 1/2 := by
      rw [← Int.self_sub_floor x, hfl]
      linarith
    rw [rhe_lt_half x hfr, hfl]
  · have hfl : ⌊x⌋ = n - 1 := by
      apply Int.floor_eq_iff.mpr
      constructor
      · push_cast; linarith
      · push_cast; linarith
    have hfr2 : 1/2 < Int.fract x := by
      rw [← Int.self_sub_floor x, hfl]
      push_cast
      linarith
    rw [rhe_gt_half x hfr2, hfl]
    omega

theorem rhe_neg (x : ℝ) : rhe (-x) = - rhe x := by
  rcases eq_or_ne (Int.fract x) 0 with h0 | h0
  · have hx : (⌊x⌋ : ℝ) = x := by
      have e2 : Int.fract x = x - ⌊x⌋ := (Int.self_sub_floor x).symm
      rw [e2] at h0
      linarith
    have h1 : rhe x = ⌊x⌋ := by
      apply rhe_lt_half
      rw [h0]
      norm_num
    have h2 : rhe (-x) = -⌊x⌋ := by
      rw [show -x = ((-⌊x⌋ : ℤ) : ℝ) by push_cast; linarith]
      exact rhe_intCast _
    rw [h1, h2]
  · have hfn : Int.fract (-x) = 1 - Int.fract x := Int.fract_neg h0
    have hfl : ⌊-x⌋ = -⌊x⌋ - 1 := by
      have e1 : Int.fract (-x) = -x - ⌊-x⌋ := (Int.self_sub_floor (-x)).symm
      have e2 : Int.fract x = x - ⌊x⌋ := (Int.self_sub_floor x).symm
      have e3 : ((⌊-x⌋ : ℤ) : ℝ) = ((-⌊x⌋ - 1 : ℤ) : ℝ) := by
        push_cast
        rw [e1, e2] at hfn
        linarith
      exact_mod_cast e3
    rcases lt_trichotomy (Int.fract x) (1/2) with h | h | h
    · have c2 : 1/2 < Int.fract (-x) := by rw [hfn]; linarith
      rw [rhe_gt_half (-x) c2, rhe_lt_half x h, hfl]
      omega
    · have hn : Int.fract (-x) = 1/2 := by rw [hfn, h]; norm_num
      rcases Int.even_or_odd ⌊x⌋ with he | ho
      · have h5 : ¬ Even (-⌊x⌋ - 1) := by
          rcases he with ⟨k, hk⟩
          intro hodd
          rcases hodd with ⟨m, hm⟩
          omega
        rw [rhe_half_odd (-x) hn (by rwa [hfl]), rhe_half_even x h he, hfl]
        omega
      · have h5 : Even (-⌊x⌋ - 1) := by
          rcases ho with ⟨k, hk⟩
          exact ⟨-k - 1, by omega⟩
        rw [rhe_half_even (-x) hn (by rwa [hfl]),
            rhe_half_odd x h (by rwa [Int.not_even_iff_odd]), hfl]
        omega
    · have c2 : Int.fract (-x) < 1/2 := by rw [hfn]; linarith
      rw [rhe_lt_half (-x) c2, rhe_gt_half x h, hfl]
      omega

theorem rhe_nonneg (x : ℝ) (hx : 0 ≤ x) : 0 ≤ rhe x := by
  have h1 := le_rhe x
  have h2 : (-1 : ℝ) < (rhe x : ℝ) := by linarith
  have h3 : (-1 : ℤ) < rhe x := by exact_mod_cast h2
  omega

theorem ceil_logb10 (x : ℝ) (k : ℤ) (h1 : (10:ℝ)^(k-1) < x) (h2 : x ≤ (10:ℝ)^k) :
    ⌈Real.logb 10 x⌉ = k := by
  have hx : 0 < x := lt_trans (by positivity) h1
  have hb : (1:ℝ) < 10 := by norm_num
  apply Int.ceil_eq_iff.mpr
  constructor
  · rw [show ((k:ℝ) - 1) = ((k - 1 : ℤ) : ℝ) by push_cast; ring]
    rw [Real.lt_logb_iff_rpow_lt hb hx, Real.rpow_intCast]
    exact h1
  · rw [Real.logb_le_iff_le_rpow hb hx, Real.rpow_intCast]
    exact h2

theorem signif_pos_eval (x : ℝ) (k : ℤ) (hx : 0 < x) (h1 : (10:ℝ)^(k-1) < x)
    (h2 : x ≤ (10:ℝ)^k) (d : ℤ) :
    signif x d = (rhe (x * (10:ℝ)^(d-k))) * (10:ℝ)^(k-d) := by
  unfold signif pyRound
  rw [if_neg hx.ne', abs_of_pos hx, ceil_logb10 x k h1 h2, neg_sub]

theorem signif4_eq (x : ℝ) (k n : ℤ) (h1 : (10:ℝ)^(k-1) < x) (h2 : x ≤ (10:ℝ)^k)
    (h3 : (n:ℝ) - 1/2 < x * (10:ℝ)^(4-k)) (h4 : x * (10:ℝ)^(4-k) < (n:ℝ) + 1/2) :
    signif x 4 = (n:ℝ) * (10:ℝ)^(k-4) := by
  have hx : 0 < x := lt_trans (by positivity) h1
  rw [signif_pos_eval x k hx h1 h2 4, rhe_eq_of_bounds _ n h3 h4]

theorem signif_zero (d : ℤ) : signif 0 d = 0 := by
  unfold signif
  simp

theorem signif_neg_arg (x : ℝ) (d : ℤ) : signif (-x) d = - signif x d := by
  rcases eq_or_ne x 0 with h | h
  · rw [h]
    simp [signif_zero]
  · unfold signif pyRound
    rw [if_neg (neg_ne_zero.mpr h), if_neg h, abs_neg]
    rw [show -x * (10:ℝ)^(d - ⌈Real.logb 10 |x|⌉)
          = -(x * (10:ℝ)^(d - ⌈Real.logb 10 |x|⌉)) by ring]
    rw [rhe_neg]
    push_cast
    ring

theorem le_ten_zpow_ceil_logb (x : ℝ) (hx : 0 < x) :
    x ≤ (10:ℝ)^(⌈Real.logb 10 x⌉) := by
  rw [← Real.rpow_intCast]
  exact (Real.logb_le_iff_le_rpow (by norm_num) hx).mp (Int.le_ceil _)

theorem ten_zpow_ceil_logb_lt (x : ℝ) (hx : 0 < x) :
    (10:ℝ)^(⌈Real.logb 10 x⌉ - 1) < x := by
  rw [← Real.rpow_intCast]
  apply (Real.lt_logb_iff_rpow_lt (by norm_num) hx).mp
  push_cast
  linarith [Int.ceil_lt_add_one (Real.logb 10 x)]

theorem signif4_idem_pos (x : ℝ) (hx : 0 < x) : signif (signif x 4) 4 = signif x 4 := by
  set k := ⌈Real.logb 10 x⌉ with hk
  have h2 : x ≤ (10:ℝ)^k := le_ten_zpow_ceil_logb x hx
  have h1 : (10:ℝ)^(k-1) < x := ten_zpow_ceil_logb_lt x hx
  have heval : signif x 4 = (rhe (x * (10:ℝ)^((4:ℤ)-k))) * (10:ℝ)^(k-4) :=
    signif_pos_eval x k hx h1 h2 4
  set m := rhe (x * (10:ℝ)^((4:ℤ)-k)) with hm
  have hzne : (10:ℝ) ≠ 0 := by norm_num
  have hsc1 : (1000:ℝ) < x * (10:ℝ)^((4:ℤ)-k) := by
    have e : (10:ℝ)^(k-1) * (10:ℝ)^((4:ℤ)-k) = 1000 := by
      rw [← zpow_add₀ hzne]
      norm_num
    calc (1000:ℝ) = (10:ℝ)^(k-1) * (10:ℝ)^((4:ℤ)-k) := e.symm
    _ < x * (10:ℝ)^((4:ℤ)-k) := by
        apply mul_lt_mul_of_pos_right h1 (by positivity)
  have hsc2 : x * (10:ℝ)^((4:ℤ)-k) ≤ 10000 := by
    have e : (10:ℝ)^(k:ℤ) * (10:ℝ)^((4:ℤ)-k) = 10000 := by
      rw [← zpow_add₀ hzne]
      norm_num
    have step : x * (10:ℝ)^((4:ℤ)-k) ≤ (10:ℝ)^(k:ℤ) * (10:ℝ)^((4:ℤ)-k) :=
      mul_le_mul_of_nonneg_right h2 (by positivity)
    linarith
  have hm1 : (1000:ℤ) ≤ m := by
    have hlr := le_rhe (x * (10:ℝ)^((4:ℤ)-k))
    have hc : (999:ℝ) < (m:ℝ) := by rw [hm]; linarith
    have hc2 : (999:ℤ) < m := by exact_mod_cast hc
    omega
  have hm2 : m ≤ 10000 := by
    have hlr := rhe_le (x * (10:ℝ)^((4:ℤ)-k))
    have hc : (m:ℝ) < 10001 := by rw [hm]; linarith
    have hc2 : m < (10001:ℤ) := by exact_mod_cast hc
    omega
  set y := signif x 4 with hy
  have hyval : y = (m:ℝ) * (10:ℝ)^(k-4) := heval
  have hmpos : (0:ℝ) < (m:ℝ) := by
    have : (0:ℤ) < m := by omega
    exact_mod_cast this
  have hypos : 0 < y := by
    rw [hyval]
    exact mul_pos hmpos (by positivity)
  have hyk : y ≤ (10:ℝ)^k := by
    rw [hyval]
    have e : (10000:ℝ) * (10:ℝ)^(k-4) = (10:ℝ)^k := by
      rw [show (10000:ℝ) = (10:ℝ)^(4:ℤ) by norm_num, ← zpow_add₀ hzne]
      norm_num
    have step : (m:ℝ) * (10:ℝ)^(k-4) ≤ (10000:ℝ) * (10:ℝ)^(k-4) := by
      apply mul_le_mul_of_nonneg_right _ (by positivity)
      exact_mod_cast hm2
    linarith
  set k2 := ⌈Real.logb 10 y⌉ with hk2
  have hk2le : k2 ≤ k := by
    rw [hk2]
    apply Int.ceil_le.mpr
    rw [Real.logb_le_iff_le_rpow (by norm_num) hypos, Real.rpow_intCast]
    exact hyk
  have h1y : (10:ℝ)^(k2-1) < y := ten_zpow_ceil_logb_lt y hypos
  have h2y : y ≤ (10:ℝ)^k2 := le_ten_zpow_ceil_logb y hypos
  have heval2 : signif y 4 = (rhe (y * (10:ℝ)^((4:ℤ)-k2))) * (10:ℝ)^(k2-4) :=
    signif_pos_eval y k2 hypos h1y h2y 4
  have hint : y * (10:ℝ)^((4:ℤ)-k2) = ((m * 10^((k-k2).toNat) : ℤ) : ℝ) := by
    rw [hyval]
    push_cast
    rw [← zpow_natCast (10:ℝ) (k-k2).toNat, Int.toNat_of_nonneg (by omega)]
    rw [mul_assoc, ← zpow_add₀ hzne]
    congr 2
    ring
  rw [heval2, hint, rhe_intCast]
  push_cast
  rw [← zpow_natCast (10:ℝ) (k-k2).toNat, Int.toNat_of_nonneg (by omega)]
  rw [hyval, mul_assoc, ← zpow_add₀ hzne]
  congr 2
  ring

/-- A Python value that is either a single float or a (flat) list of floats,
as accepted by the duck-typed functions of the source. -/
inductive PyVal
  | num (x : ℝ)
  | list (l : List ℝ)

/-- Evaluate a Python list comprehension left to right, stopping at the first
raised exception. -/
def mapME {α β : Type} (f : α → Except PyErr β) : List α → Except PyErr (List β)
  | [] => Except.ok []
  | a :: as => do
      let b ← f a
      let bs ← mapME f as
      Except.ok (b :: bs)

/-- Python list indexing l[i]: IndexError when out of range. -/
def lget {α : Type} (l : List α) (i : ℕ) : Except PyErr α :=
  match l.get? i with
  | some v => Except.ok v
  | none => Except.error PyErr.indexError

/-- T_C on a single resistance:
TC = degKtoC(1/(A + B*log(rt) + C*log(rt)**3)); TC = signif(TC, 4).
math.log raises ValueError on a non-positive argument; a zero denominator
raises ZeroDivisionError. -/
noncomputable def T_C (rt A B C : ℝ) : Except PyErr ℝ :=
  if rt ≤ 0 then Except.error PyErr.valueError
  else
    let L := Real.log rt
    let den := A + B*L + C*L^3
    if den = 0 then Except.error PyErr.zeroDivision
    else Except.ok (signif (degKtoC (1/den)) 4)

/-- T_C with the source's number-or-list branching. -/
noncomputable def T_Cv (rt : PyVal) (A B C : ℝ) : Except PyErr PyVal :=
  match rt with
  | PyVal.num r => (T_C r A B C).map PyVal.num
  | PyVal.list l => (mapME (fun r => T_C r A B C) l).map PyVal.list

/-- degCtoF applied to a number-or-list value (the source's degCtoF handles
both shapes). -/
noncomputable def degCtoFV : PyVal → PyVal
  | PyVal.num x => PyVal.num (degCtoF x)
  | PyVal.list l => PyVal.list (l.map degCtoF)

/-- signif applied to a Python value.  On a list, the source evaluates
`x == 0 or not math.isfinite(x)`: the comparison is False and
math.isfinite(list) raises TypeError. -/
noncomputable def signifV (x : PyVal) (digits : ℤ) : Except PyErr PyVal :=
  match x with
  | PyVal.num v => Except.ok (PyVal.num (signif v digits))
  | PyVal.list _ => Except.error PyErr.typeError

/-- T_F: TF = degCtoF(T_C(rt, A, B, C, False)); TF = signif(TF, 4).
Unlike T_C, T_F has no isinstance branch before calling signif. -/
noncomputable def T_F (rt : PyVal) (A B C : ℝ) : Except PyErr PyVal := do
  let tc ← T_Cv rt A B C
  signifV (degCtoFV tc) 4

/-- Modelled from the spec: T_F as section 4.3 describes it, "defined as
CelsiusToFahrenheit(T_C(...)), rounded once at the end - NOT by rounding T_C
first and then converting".  The Celsius value here is the raw Steinhart-Hart
result without T_C's own 4-significant-digit rounding. -/
noncomputable def T_F_spec (rt A B C : ℝ) : Except PyErr ℝ :=
  if rt ≤ 0 then Except.error PyErr.valueError
  else
    let L := Real.log rt
    let den := A + B*L + C*L^3
    if den = 0 then Except.error PyErr.zeroDivision
    else Except.ok (signif (degCtoF (degKtoC (1/den))) 4)

/-- Rt_fromADCvalues on a single ADC reading: round(rs*(Vmax/Vout - 1)).
Division by Vout = 0 raises ZeroDivisionError. -/
noncomputable def Rt_fromADCvalues (Vout Vmax rs : ℝ) : Except PyErr ℤ :=
  if Vout = 0 then Except.error PyErr.zeroDivision
  else Except.ok (rhe (rs * (Vmax/Vout - 1)))

/-- Vout_ADC on a single resistance: round(Vmax*rs/(rs+rt)).
Division by rs+rt = 0 raises ZeroDivisionError. -/
noncomputable def Vout_ADC (rt rs Vmax : ℝ) : Except PyErr ℤ :=
  if rs + rt = 0 then Except.error PyErr.zeroDivision
  else Except.ok (rhe (Vmax * rs / (rs + rt)))

/-- The local variable y of Rt_fromTC_ABC: y = (A-1/degCtoK(TC))/(2*C). -/
noncomputable def shY (TC A C : ℝ) : ℝ := (A - 1/degCtoK TC)/(2*C)

/-- The argument of math.sqrt in Rt_fromTC_ABC: (B/(3*C))**3 + y**2. -/
noncomputable def shRad (TC A B C : ℝ) : ℝ := (B/(3*C))^3 + (shY TC A C)^2

/-- The local variable x of Rt_fromTC_ABC: x = y + sqrt((B/(3*C))**3 + y**2). -/
noncomputable def shX (TC A B C : ℝ) : ℝ := shY TC A C + Real.sqrt (shRad TC A B C)

/-- The local variable x13 of Rt_fromTC_ABC: x13 = x**(1/3). -/
noncomputable def shX13 (TC A B C : ℝ) : ℝ := (shX TC A B C)^((1:ℝ)/3)

/-- The local variable lnR of Rt_fromTC_ABC: lnR = B/(3*C*x13) - x13. -/
noncomputable def shLnR (TC A B C : ℝ) : ℝ :=
  B/(3*C*shX13 TC A B C) - shX13 TC A B C

/-- Rt_fromTC_ABC on a single temperature: R = round(exp(lnR)) with the local
variables above.  Error model: 1/degCtoK(TC) and /(2*C) raise
ZeroDivisionError on a zero denominator; math.sqrt of a negative raises
ValueError; x**(1/3) for x < 0 yields a complex number in Python 3, and
math.exp then raises TypeError (modelled as an immediate TypeError; no claim
exercises that branch); x = 0 makes 3*C*x13 zero, raising ZeroDivisionError. -/
noncomputable def Rt_fromTC_ABC (TC A B C : ℝ) : Except PyErr ℤ :=
  if degCtoK TC = 0 then Except.error PyErr.zeroDivision
  else if C = 0 then Except.error PyErr.zeroDivision
  else if shRad TC A B C < 0 then Except.error PyErr.valueError
  else if shX TC A B C < 0 then Except.error PyErr.typeError
  else if 3*C*shX13 TC A B C = 0 then Except.error PyErr.zeroDivision
  else Except.ok (rhe (Real.exp (shLnR TC A B C)))

/-- Rt_fromTC_ABC on a list of temperatures (element-wise). -/
noncomputable def Rt_fromTC_ABCv (TC : List ℝ) (A B C : ℝ) : Except PyErr (List ℤ) :=
  mapME (fun t => Rt_fromTC_ABC t A B C) TC

/-- The body of ABCatRT up to (and excluding) the final rounding:
L = [log(Rt[i]) ...]; Y = [1/degCtoK(TC[i]) ...];
y = [(Y[i]-Y[0])/(L[i]-L[0]) for i in range(1, len(Y))];
C = (y[1]-y[0])/(L[2]-L[1])/sum(L);
B = y[0] - C*(L[0]**2+L[0]*L[1]+L[1]**2);
A = Y[0] - L[0]*(B+C*L[0]**2).
List accesses use Python indexing (IndexError when out of range), divisions
by zero raise ZeroDivisionError, log of a non-positive raises ValueError. -/
noncomputable def ABCcore (TC Rt : List ℝ) : Except PyErr (ℝ × ℝ × ℝ) := do
  let L ← mapME (fun r =>
    if r ≤ 0 then Except.error PyErr.valueError else Except.ok (Real.log r)) Rt
  let Y ← mapME (fun t =>
    if degCtoK t = 0 then Except.error PyErr.zeroDivision
    else Except.ok (1 / degCtoK t)) TC
  let y ← mapME (fun i => do
      let Yi ← lget Y i
      let Y0 ← lget Y 0
      let Li ← lget L i
      let L0 ← lget L 0
      if Li - L0 = 0 then Except.error PyErr.zeroDivision
      else Except.ok ((Yi - Y0)/(Li - L0))) (List.range' 1 (TC.length - 1))
  let y1 ← lget y 1
  let y0 ← lget y 0
  let l2 ← lget L 2
  let l1 ← lget L 1
  let C ← if l2 - l1 = 0 then Except.error PyErr.zeroDivision
    else if L.sum = 0 then Except.error PyErr.zeroDivision
    else Except.ok ((y1 - y0)/(l2 - l1)/L.sum)
  let l0 ← lget L 0
  let B := y0 - C*(l0^2 + l0*l1 + l1^2)
  let Y0 ← lget Y 0
  let A := Y0 - l0*(B + C*l0^2)
  Except.ok (A, B, C)

/-- ABCatRT: the source computes A, B, C as in ABCcore, then reassigns each
with signif(_, 4) before returning [A, B, C]. -/
noncomputable def ABCatRT (TC Rt : List ℝ) : Except PyErr (List ℝ) :=
  (ABCcore TC Rt).map (fun abc => [signif abc.1 4, signif abc.2.1 4, signif abc.2.2 4])

/-- Modelled from the spec: the fitter whose "canonical output is the
unrounded triple" (spec section 4.4), for comparison with ABCatRT. -/
noncomputable def ABCatRT_unrounded (TC Rt : List ℝ) : Except PyErr (List ℝ) :=
  (ABCcore TC Rt).map (fun abc => [abc.1, abc.2.1, abc.2.2])

theorem T_C_isOk (rt A B C : ℝ) (h1 : 1 < rt) (hA : 0 < A) (hB : 0 ≤ B) (hC : 0 ≤ C) :
    ∃ v, T_C rt A B C = Except.ok v := by
  unfold T_C
  rw [if_neg (by simp; linarith)]
  have hL : 0 < Real.log rt := Real.log_pos h1
  have hden : 0 < A + B*Real.log rt + C*(Real.log rt)^3 := by positivity
  rw [if_neg hden.ne']
  exact ⟨_, rfl⟩

/-- C6: for every choice of coefficients, the forward model T_C applied to a
zero or negative resistance (here -5 and 0) raises ValueError (the math
domain error from log), and never returns a numeric value. -/
theorem claim_C6_domain_error (A B C : ℝ) :
    T_C (-5) A B C = Except.error PyErr.valueError ∧
    T_C 0 A B C = Except.error PyErr.valueError ∧
    (∀ v : ℝ, T_C (-5) A B C ≠ Except.ok v) ∧
    (∀ v : ℝ, T_C 0 A B C ≠ Except.ok v) := by
  have e1 : T_C (-5) A B C = Except.error PyErr.valueError := by
    unfold T_C
    rw [if_pos (by norm_num : (-5:ℝ) ≤ 0)]
  have e2 : T_C 0 A B C = Except.error PyErr.valueError := by
    unfold T_C
    rw [if_pos (le_refl (0:ℝ))]
  refine ⟨e1, e2, ?_, ?_⟩
  · intro v
    rw [e1]
    intro hcontra
    exact Except.noConfusion hcontra
  · intro v
    rw [e2]
    intro hcontra
    exact Except.noConfusion hcontra

/-- C8: rounding to 4 significant digits is idempotent on every real input. -/
theorem claim_C8_signif_idempotent (x : ℝ) : signif (signif x 4) 4 = signif x 4 := by
  rcases lt_trichotomy x 0 with h | h | h
  · have hpos := signif4_idem_pos (-x) (by linarith)
    have e1 : signif x 4 = - signif (-x) 4 := by
      have e2 := signif_neg_arg (-x) 4
      rw [neg_neg] at e2
      exact e2
    rw [e1, signif_neg_arg, hpos]
  · rw [h, signif_zero, signif_zero]
  · exact signif4_idem_pos x h

/-- C4 (amended): T_F converts the already rounded Celsius value returned by
T_C to Fahrenheit and then rounds again to 4 significant digits, so rounding
is applied twice, not once at the end. -/
theorem claim_C4_amended (rt A B C : ℝ) :
    T_F (PyVal.num rt) A B C
      = (T_C rt A B C).map (fun tc => PyVal.num (signif (degCtoF tc) 4)) := by
  unfold T_F T_Cv
  cases h : T_C rt A B C with
  | error e =>
      simp [h, Except.map, signifV, degCtoFV, Except.bind, Bind.bind]
  | ok v =>
      simp [h, Except.map, signifV, degCtoFV, Except.bind, Bind.bind]

/-- C4 (counterexample): at rt = 1, A = 100/37319, B = C = 0, the raw Celsius
temperature is exactly 100.04; T_F returns 212.0 (conversion of the rounded
100.0) while rounding once at the end as the spec prescribes gives 212.1. -/
theorem claim_C4_counterexample :
    T_F (PyVal.num 1) (100/37319) 0 0 = Except.ok (PyVal.num 212) ∧
    T_F_spec 1 (100/37319) 0 0 = Except.ok (2121/10) ∧
    (212 : ℝ) ≠ 2121/10 := by
  have hTC : T_C 1 (100/37319) 0 0 = Except.ok 100 := by
    unfold T_C
    rw [if_neg (by norm_num : ¬ (1:ℝ) ≤ 0)]
    rw [if_neg (by simp [Real.log_one])]
    congr 1
    have harg : degKtoC (1/((100:ℝ)/37319 + 0*Real.log 1 + 0*(Real.log 1)^3))
        = 100.04 := by
      unfold degKtoC
      simp [Real.log_one]
      norm_num
    rw [harg]
    have := signif4_eq (100.04) 3 1000 (by norm_num) (by norm_num)
      (by push_cast; norm_num) (by push_cast; norm_num)
    rw [this]
    norm_num
  refine ⟨?_, ?_, by norm_num⟩
  · unfold T_F T_Cv
    simp only [hTC, Except.map, Except.bind, Bind.bind, signifV, degCtoFV]
    have harg : degCtoF 100 = 212 := by
      unfold degCtoF
      norm_num
    rw [harg]
    have := signif4_eq (212:ℝ) 3 2120 (by norm_num) (by norm_num)
      (by push_cast; norm_num) (by push_cast; norm_num)
    rw [this]
    norm_num
  · unfold T_F_spec
    rw [if_neg (by norm_num : ¬ (1:ℝ) ≤ 0)]
    rw [if_neg (by simp [Real.log_one])]
    congr 1
    have harg : degCtoF (degKtoC (1/((100:ℝ)/37319 + 0*Real.log 1 + 0*(Real.log 1)^3)))
        = 212.072 := by
      unfold degCtoF degKtoC
      simp [Real.log_one]
      norm_num
    rw [harg]
    have := signif4_eq (212.072:ℝ) 3 2121 (by norm_num) (by norm_num)
      (by push_cast; norm_num) (by push_cast; norm_num)
    rw [this]
    norm_num

/-- C5: T_F applied to the ordered sequence of resistances [29490, 10000, 3893]
raises TypeError (math.isfinite applied to a list inside signif) instead of
returning the element-wise sequence promised by the source's own comment. -/
theorem claim_C5_list_typeError :
    T_F (PyVal.list [29490, 10000, 3893]) (1029/10^6) (2391/10^7) (1566/10^10)
      = Except.error PyErr.typeError := by
  obtain ⟨v1, hv1⟩ := T_C_isOk 29490 (1029/10^6) (2391/10^7) (1566/10^10)
    (by norm_num) (by norm_num) (by norm_num) (by norm_num)
  obtain ⟨v2, hv2⟩ := T_C_isOk 10000 (1029/10^6) (2391/10^7) (1566/10^10)
    (by norm_num) (by norm_num) (by norm_num) (by norm_num)
  obtain ⟨v3, hv3⟩ := T_C_isOk 3893 (1029/10^6) (2391/10^7) (1566/10^10)
    (by norm_num) (by norm_num) (by norm_num) (by norm_num)
  unfold T_F T_Cv
  have hmap : mapME (fun r => T_C r (1029/10^6) (2391/10^7) (1566/10^10))
      [(29490:ℝ), 10000, 3893] = Except.ok [v1, v2, v3] := by
    simp [mapME, hv1, hv2, hv3, Except.bind, Bind.bind]
  simp only [hmap, Except.map, Except.bind, Bind.bind, signifV, degCtoFV]

/-- C9 (amended): the ADC round trip returns the original code within plus or
minus one count provided the series resistance is at least Vmax; for small
series resistances the integer rounding of the intermediate resistance can
move the recovered code by arbitrarily many counts. -/
theorem claim_C9_amended (Vout Vmax : ℤ) (rs : ℝ) (h1 : 0 < Vout) (h2 : Vout ≤ Vmax)
    (h3 : (Vmax:ℝ) ≤ rs) :
    ∃ rt v2 : ℤ, Rt_fromADCvalues (Vout:ℝ) (Vmax:ℝ) rs = Except.ok rt ∧
      Vout_ADC (rt:ℝ) rs (Vmax:ℝ) = Except.ok v2 ∧ |v2 - Vout| ≤ 1 := by
  have hv0 : (0:ℝ) < (Vout:ℝ) := by exact_mod_cast h1
  have hvm : (Vout:ℝ) ≤ (Vmax:ℝ) := by exact_mod_cast h2
  have hrs : (0:ℝ) < rs := lt_of_lt_of_le (lt_of_lt_of_le hv0 hvm) h3
  set w := rs * ((Vmax:ℝ)/(Vout:ℝ) - 1) with hw
  have hw0 : 0 ≤ w := by
    apply mul_nonneg hrs.le
    have hd : (1:ℝ) ≤ (Vmax:ℝ)/(Vout:ℝ) := (one_le_div hv0).mpr hvm
    linarith
  set rt := rhe w with hrt
  have hrt0 : (0:ℝ) ≤ (rt:ℝ) := by exact_mod_cast rhe_nonneg w hw0
  have hden : 0 < rs + (rt:ℝ) := by linarith
  set u := (Vmax:ℝ) * rs / (rs + (rt:ℝ)) with hu
  refine ⟨rt, rhe u, ?_, ?_, ?_⟩
  · unfold Rt_fromADCvalues
    rw [if_neg hv0.ne']
  · unfold Vout_ADC
    rw [if_neg hden.ne']
  · have hkey : (Vout:ℝ) * w = rs * ((Vmax:ℝ) - (Vout:ℝ)) := by
      rw [hw]
      field_simp
    have hwrt1 : w - 1/2 ≤ (rt:ℝ) := le_rhe w
    have hwrt2 : (rt:ℝ) ≤ w + 1/2 := rhe_le w
    have hp1 : (Vout:ℝ)*(w - 1/2) ≤ (Vout:ℝ)*(rt:ℝ) :=
      mul_le_mul_of_nonneg_left hwrt1 hv0.le
    have hp2 : (Vout:ℝ)*(rt:ℝ) ≤ (Vout:ℝ)*(w + 1/2) :=
      mul_le_mul_of_nonneg_left hwrt2 hv0.le
    have hub : u ≤ (Vout:ℝ) + 1/2 := by
      rw [hu, div_le_iff₀ hden]
      nlinarith [hp1, hkey, h3, hrt0, hvm]
    have hlb : (Vout:ℝ) - 1/2 ≤ u := by
      rw [hu, le_div_iff₀ hden]
      nlinarith [hp2, hkey, h3, hrt0, hvm]
    have hvu1 := le_rhe u
    have hvu2 := rhe_le u
    have c1 : ((rhe u : ℤ) : ℝ) - (Vout:ℝ) ≤ 1 := by linarith
    have c2 : (-1 : ℝ) ≤ ((rhe u : ℤ) : ℝ) - (Vout:ℝ) := by linarith
    have c1i : rhe u - Vout ≤ 1 := by exact_mod_cast c1
    have c2i : (-1 : ℤ) ≤ rhe u - Vout := by exact_mod_cast c2
    rw [abs_le]
    exact ⟨c2i, c1i⟩

/-- C9 witness of the amended round trip at Vout = 512, Vmax = 1023,
rs = 1023. -/
theorem claim_C9_amended_witness :
    ∃ rt v2 : ℤ, Rt_fromADCvalues ((512:ℤ):ℝ) ((1023:ℤ):ℝ) 1023 = Except.ok rt ∧
      Vout_ADC (rt:ℝ) 1023 ((1023:ℤ):ℝ) = Except.ok v2 ∧ |v2 - 512| ≤ 1 :=
  claim_C9_amended 512 1023 1023 (by norm_num) (by norm_num) (by norm_num)

/-- C9 (counterexample): with Vout = 700, Vmax = 1023 and the positive series
resistance rs = 1, the computed thermistor resistance rounds to 0 ohms and the
recovered ADC code is 1023, a 323-count error. -/
theorem claim_C9_counterexample :
    Rt_fromADCvalues 700 1023 1 = Except.ok 0 ∧
    Vout_ADC 0 1 1023 = Except.ok 1023 ∧
    ¬ (|(1023:ℤ) - 700| ≤ 1) := by
  refine ⟨?_, ?_, by decide⟩
  · unfold Rt_fromADCvalues
    rw [if_neg (by norm_num : ¬ (700:ℝ) = 0)]
    congr 1
    rw [show (1:ℝ) * ((1023:ℝ)/700 - 1) = 323/700 by norm_num]
    exact rhe_eq_of_bounds (323/700 : ℝ) 0 (by norm_num) (by norm_num)
  · unfold Vout_ADC
    rw [if_neg (by norm_num : ¬ (1:ℝ) + 0 = 0)]
    rw [show (1023:ℝ) * 1 / (1 + 0) = ((1023:ℤ):ℝ) by norm_num]
    rw [rhe_intCast]

theorem ABCcore_three (t0 t1 t2 r0 r1 r2 : ℝ)
    (hr0 : 0 < r0) (hr1 : 0 < r1) (hr2 : 0 < r2)
    (hk0 : degCtoK t0 ≠ 0) (hk1 : degCtoK t1 ≠ 0) (hk2 : degCtoK t2 ≠ 0)
    (hL10 : Real.log r1 - Real.log r0 ≠ 0)
    (hL20 : Real.log r2 - Real.log r0 ≠ 0)
    (hL21 : Real.log r2 - Real.log r1 ≠ 0)
    (hsum : Real.log r0 + (Real.log r1 + Real.log r2) ≠ 0) :
    ABCcore [t0,t1,t2] [r0,r1,r2] =
      Except.ok
        (1/degCtoK t0 - Real.log r0 *
            (((1/degCtoK t1 - 1/degCtoK t0)/(Real.log r1 - Real.log r0) -
              ((1/degCtoK t2 - 1/degCtoK t0)/(Real.log r2 - Real.log r0) -
                (1/degCtoK t1 - 1/degCtoK t0)/(Real.log r1 - Real.log r0)) /
                (Real.log r2 - Real.log r1)/(Real.log r0 + (Real.log r1 + Real.log r2)) *
                ((Real.log r0)^2 + Real.log r0 * Real.log r1 + (Real.log r1)^2)) +
             ((1/degCtoK t2 - 1/degCtoK t0)/(Real.log r2 - Real.log r0) -
                (1/degCtoK t1 - 1/degCtoK t0)/(Real.log r1 - Real.log r0)) /
                (Real.log r2 - Real.log r1)/(Real.log r0 + (Real.log r1 + Real.log r2)) *
                (Real.log r0)^2),
         (1/degCtoK t1 - 1/degCtoK t0)/(Real.log r1 - Real.log r0) -
            ((1/degCtoK t2 - 1/degCtoK t0)/(Real.log r2 - Real.log r0) -
              (1/degCtoK t1 - 1/degCtoK t0)/(Real.log r1 - Real.log r0)) /
              (Real.log r2 - Real.log r1)/(Real.log r0 + (Real.log r1 + Real.log r2)) *
              ((Real.log r0)^2 + Real.log r0 * Real.log r1 + (Real.log r1)^2),
         ((1/degCtoK t2 - 1/degCtoK t0)/(Real.log r2 - Real.log r0) -
            (1/degCtoK t1 - 1/degCtoK t0)/(Real.log r1 - Real.log r0)) /
            (Real.log r2 - Real.log r1)/(Real.log r0 + (Real.log r1 + Real.log r2))) := by
  have hLs : mapME (fun r =>
      if r ≤ 0 then Except.error PyErr.valueError else Except.ok (Real.log r))
      [r0,r1,r2] = Except.ok [Real.log r0, Real.log r1, Real.log r2] := by
    simp [mapME, Except.bind, Bind.bind, hr0.not_le, hr1.not_le, hr2.not_le]
  have hYs : mapME (fun t =>
      if degCtoK t = 0 then Except.error PyErr.zeroDivision
      else Except.ok (1 / degCtoK t)) [t0,t1,t2]
      = Except.ok [1/degCtoK t0, 1/degCtoK t1, 1/degCtoK t2] := by
    simp [mapME, Except.bind, Bind.bind, hk0, hk1, hk2]
  unfold ABCcore
  rw [hLs, hYs]
  simp only [Except.bind, Bind.bind, List.length_cons, List.length_nil]
  rw [show (2+1-1 : ℕ) = 2 from rfl]
  rw [show List.range' 1 2 = [1, 2] from rfl]
  simp only [mapME, lget, List.get?, Except.bind, Bind.bind]
  rw [if_neg hL10, if_neg hL20]
  simp only [Except.bind, Bind.bind, lget, List.get?, List.sum_cons, List.sum_nil, add_zero]
  rw [if_neg hL21, if_neg hsum]

theorem ABCatRT_dup_resistance :
    ABCatRT [0,25,50] [10000,10000,3893] = Except.error PyErr.zeroDivision := by
  have hcore : ABCcore [0,25,50] [(10000:ℝ),10000,3893]
      = Except.error PyErr.zeroDivision := by
    have hLs : mapME (fun r =>
        if r ≤ 0 then Except.error PyErr.valueError else Except.ok (Real.log r))
        [(10000:ℝ),10000,3893]
        = Except.ok [Real.log 10000, Real.log 10000, Real.log 3893] := by
      simp [mapME, Except.bind, Bind.bind]
      norm_num
    have hYs : mapME (fun t =>
        if degCtoK t = 0 then Except.error PyErr.zeroDivision
        else Except.ok (1 / degCtoK t)) [(0:ℝ),25,50]
        = Except.ok [1/degCtoK 0, 1/degCtoK 25, 1/degCtoK 50] := by
      simp [mapME, Except.bind, Bind.bind, degCtoK]
      norm_num
    unfold ABCcore
    rw [hLs, hYs]
    simp only [Except.bind, Bind.bind, List.length_cons, List.length_nil]
    rw [show (2+1-1 : ℕ) = 2 from rfl]
    rw [show List.range' 1 2 = [1, 2] from rfl]
    simp only [mapME, lget, List.get?, Except.bind, Bind.bind]
    rw [if_pos (by ring : Real.log 10000 - Real.log 10000 = 0)]
  unfold ABCatRT
  rw [hcore]
  rfl

/-- C7 (amended): calling the fitter with two equal resistances raises the
generic ZeroDivisionError (the division by log Rt1 - log Rt0 = 0), not a
dedicated degenerate-input error class, and does not return coefficients. -/
theorem claim_C7_amended :
    ABCatRT [0,25,50] [10000,10000,3893] = Except.error PyErr.zeroDivision ∧
    (∀ l, ABCatRT [0,25,50] [10000,10000,3893] ≠ Except.ok l) := by
  refine ⟨ABCatRT_dup_resistance, ?_⟩
  intro l
  rw [ABCatRT_dup_resistance]
  intro hcontra
  exact Except.noConfusion hcontra

/-- C7 (counterexample): the error raised on a degenerate calibration set
(duplicate resistance) is the same ZeroDivisionError that is also raised on a
calibration set whose resistances are pairwise distinct (temperature
-273.15 makes 1/degCtoK(TC) divide by zero), so the error class does not
identify a bad calibration set. -/
theorem claim_C7_counterexample :
    ABCatRT [0,25,50] [10000,10000,3893] = Except.error PyErr.zeroDivision ∧
    ABCatRT [-273.15,25,50] [29490,10000,3893] = Except.error PyErr.zeroDivision ∧
    (29490:ℝ) ≠ 10000 ∧ (10000:ℝ) ≠ 3893 ∧ (29490:ℝ) ≠ 3893 := by
  refine ⟨ABCatRT_dup_resistance, ?_, by norm_num, by norm_num, by norm_num⟩
  have hLs : mapME (fun r =>
      if r ≤ 0 then Except.error PyErr.valueError else Except.ok (Real.log r))
      [(29490:ℝ),10000,3893]
      = Except.ok [Real.log 29490, Real.log 10000, Real.log 3893] := by
    simp [mapME, Except.bind, Bind.bind]
    norm_num
  have hY0 : degCtoK (-273.15) = 0 := by
    unfold degCtoK
    norm_num
  unfold ABCatRT ABCcore
  rw [hLs]
  simp only [Except.bind, Bind.bind, mapME, hY0]
  rfl

/-- C3 (amended): the triple returned by the fitter is the componentwise
4-significant-digit rounding of the unrounded triple, not the unrounded
triple itself. -/
theorem claim_C3_amended (TC Rt : List ℝ) :
    ABCatRT TC Rt = (ABCatRT_unrounded TC Rt).map (List.map (fun v => signif v 4)) := by
  unfold ABCatRT ABCatRT_unrounded
  cases h : ABCcore TC Rt with
  | error e => simp [Except.map]
  | ok abc => simp [Except.map]

/-- C3 (counterexample): on the valid calibration input TC = [0, 25, 50],
Rt = [exp 1, exp 2, exp 3] (positive, pairwise distinct resistances) the
fitter's returned triple differs from the unrounded triple: the unrounded C
is 2500000/631613524041 but the returned C is the rounded 3.958e-6. -/
theorem claim_C3_counterexample :
    ABCatRT [0,25,50] [Real.exp 1, Real.exp 2, Real.exp 3]
      ≠ ABCatRT_unrounded [0,25,50] [Real.exp 1, Real.exp 2, Real.exp 3] := by
  have hlog1 : Real.log (Real.exp 1) = 1 := Real.log_exp 1
  have hlog2 : Real.log (Real.exp 2) = 2 := Real.log_exp 2
  have hlog3 : Real.log (Real.exp 3) = 3 := Real.log_exp 3
  have hcore := ABCcore_three 0 25 50 (Real.exp 1) (Real.exp 2) (Real.exp 3)
    (Real.exp_pos 1) (Real.exp_pos 2) (Real.exp_pos 3)
    (by unfold degCtoK; norm_num) (by unfold degCtoK; norm_num)
    (by unfold degCtoK; norm_num)
    (by rw [hlog1, hlog2]; norm_num)
    (by rw [hlog1, hlog3]; norm_num)
    (by rw [hlog2, hlog3]; norm_num)
    (by rw [hlog1, hlog2, hlog3]; norm_num)
  rw [hlog1, hlog2, hlog3] at hcore
  unfold ABCatRT ABCatRT_unrounded
  rw [hcore]
  simp only [Except.map]
  intro hcontra
  rw [Except.ok.injEq] at hcontra
  simp only [List.cons.injEq, and_true] at hcontra
  have h3 := hcontra.2.2
  have hCval : ((1/degCtoK 50 - 1/degCtoK 0)/((3:ℝ) - 1) -
      (1/degCtoK 25 - 1/degCtoK 0)/((2:ℝ) - 1)) / ((3:ℝ) - 2) / ((1:ℝ) + (2 + 3))
      = 2500000/631613524041 := by
    unfold degCtoK
    norm_num
  rw [hCval] at h3
  have hsig : signif ((2500000:ℝ)/631613524041) 4 = (3958:ℝ) * (10:ℝ)^((-5:ℤ)-4) := by
    apply signif4_eq ((2500000:ℝ)/631613524041) (-5) 3958
    · rw [show ((-5:ℤ)-1) = (-6:ℤ) from rfl]
      rw [show (10:ℝ)^(-6:ℤ) = 1/10^6 by norm_num]
      norm_num
    · rw [show (10:ℝ)^(-5:ℤ) = 1/10^5 by norm_num]
      norm_num
    · rw [show ((4:ℤ)-(-5)) = (9:ℤ) from rfl]
      rw [show (10:ℝ)^(9:ℤ) = 10^9 by norm_num]
      norm_num
    · rw [show ((4:ℤ)-(-5)) = (9:ℤ) from rfl]
      rw [show (10:ℝ)^(9:ℤ) = 10^9 by norm_num]
      norm_num
  rw [hsig] at h3
  rw [show ((-5:ℤ)-4) = (-9:ℤ) from rfl] at h3
  rw [show (10:ℝ)^(-9:ℤ) = 1/10^9 by norm_num] at h3
  norm_num at h3

/-- C10: the fitter does not enforce the three-point precondition: with
2-element lists it raises IndexError (accessing y[1]), while with 4-element
lists it returns a rounded triple whose C component is changed by the fourth
point through sum(L) (here 2.375e-6 instead of 3.958e-6 for the same first
three points). -/
theorem claim_C10_arity :
    ABCatRT [0,25] [Real.exp 1, Real.exp 2] = Except.error PyErr.indexError ∧
    (∃ l l3 : List ℝ,
      ABCatRT [0,25,50,75] [Real.exp 1, Real.exp 2, Real.exp 3, Real.exp 4]
        = Except.ok l ∧
      ABCatRT [0,25,50] [Real.exp 1, Real.exp 2, Real.exp 3] = Except.ok l3 ∧
      l.get? 2 ≠ l3.get? 2) := by
  have hlog1 : Real.log (Real.exp 1) = 1 := Real.log_exp 1
  have hlog2 : Real.log (Real.exp 2) = 2 := Real.log_exp 2
  have hlog3 : Real.log (Real.exp 3) = 3 := Real.log_exp 3
  have hlog4 : Real.log (Real.exp 4) = 4 := Real.log_exp 4
  constructor
  · have hLs : mapME (fun r =>
        if r ≤ 0 then Except.error PyErr.valueError else Except.ok (Real.log r))
        [Real.exp 1, Real.exp 2] = Except.ok [(1:ℝ), 2] := by
      simp [mapME, Except.bind, Bind.bind, (Real.exp_pos 1).not_le,
        (Real.exp_pos 2).not_le, hlog1, hlog2]
    have hYs : mapME (fun t =>
        if degCtoK t = 0 then Except.error PyErr.zeroDivision
        else Except.ok (1 / degCtoK t)) [(0:ℝ),25]
        = Except.ok [1/degCtoK 0, 1/degCtoK 25] := by
      simp [mapME, Except.bind, Bind.bind, degCtoK]
      norm_num
    unfold ABCatRT ABCcore
    rw [hLs, hYs]
    simp only [Except.bind, Bind.bind, List.length_cons, List.length_nil]
    rw [show (1+1-1 : ℕ) = 1 from rfl]
    rw [show List.range' 1 1 = [1] from rfl]
    simp only [mapME, lget, List.get?, Except.bind, Bind.bind]
    rw [if_neg (by norm_num : ¬ ((2:ℝ) - 1 = 0))]
    simp only [Except.bind, Bind.bind, lget, List.get?, Except.map]
  · have hcore3 := ABCcore_three 0 25 50 (Real.exp 1) (Real.exp 2) (Real.exp 3)
      (Real.exp_pos 1) (Real.exp_pos 2) (Real.exp_pos 3)
      (by unfold degCtoK; norm_num) (by unfold degCtoK; norm_num)
      (by unfold degCtoK; norm_num)
      (by rw [hlog1, hlog2]; norm_num)
      (by rw [hlog1, hlog3]; norm_num)
      (by rw [hlog2, hlog3]; norm_num)
      (by rw [hlog1, hlog2, hlog3]; norm_num)
    rw [hlog1, hlog2, hlog3] at hcore3
    have hLs : mapME (fun r =>
        if r ≤ 0 then Except.error PyErr.valueError else Except.ok (Real.log r))
        [Real.exp 1, Real.exp 2, Real.exp 3, Real.exp 4]
        = Except.ok [(1:ℝ), 2, 3, 4] := by
      simp [mapME, Except.bind, Bind.bind, (Real.exp_pos 1).not_le,
        (Real.exp_pos 2).not_le, (Real.exp_pos 3).not_le, (Real.exp_pos 4).not_le,
        hlog1, hlog2, hlog3, hlog4]
    have hYs : mapME (fun t =>
        if degCtoK t = 0 then Except.error PyErr.zeroDivision
        else Except.ok (1 / degCtoK t)) [(0:ℝ),25,50,75]
        = Except.ok [1/degCtoK 0, 1/degCtoK 25, 1/degCtoK 50, 1/degCtoK 75] := by
      simp [mapME, Except.bind, Bind.bind, degCtoK]
      norm_num
    have hcore4 : ABCcore [0,25,50,75] [Real.exp 1, Real.exp 2, Real.exp 3, Real.exp 4]
        = Except.ok
          (1/degCtoK 0 - 1 *
              (((1/degCtoK 25 - 1/degCtoK 0)/((2:ℝ) - 1) -
                ((1/degCtoK 50 - 1/degCtoK 0)/((3:ℝ) - 1) -
                  (1/degCtoK 25 - 1/degCtoK 0)/((2:ℝ) - 1)) /
                  ((3:ℝ) - 2)/((1:ℝ) + (2 + (3 + 4))) *
                  ((1:ℝ)^2 + 1 * 2 + (2:ℝ)^2)) +
               ((1/degCtoK 50 - 1/degCtoK 0)/((3:ℝ) - 1) -
                  (1/degCtoK 25 - 1/degCtoK 0)/((2:ℝ) - 1)) /
                  ((3:ℝ) - 2)/((1:ℝ) + (2 + (3 + 4))) * (1:ℝ)^2),
           (1/degCtoK 25 - 1/degCtoK 0)/((2:ℝ) - 1) -
              ((1/degCtoK 50 - 1/degCtoK 0)/((3:ℝ) - 1) -
                (1/degCtoK 25 - 1/degCtoK 0)/((2:ℝ) - 1)) /
                ((3:ℝ) - 2)/((1:ℝ) + (2 + (3 + 4))) *
                ((1:ℝ)^2 + 1 * 2 + (2:ℝ)^2),
           ((1/degCtoK 50 - 1/degCtoK 0)/((3:ℝ) - 1) -
              (1/degCtoK 25 - 1/degCtoK 0)/((2:ℝ) - 1)) /
              ((3:ℝ) - 2)/((1:ℝ) + (2 + (3 + 4)))) := by
      unfold ABCcore
      rw [hLs, hYs]
      simp only [Except.bind, Bind.bind, List.length_cons, List.length_nil]
      rw [show (3+1-1 : ℕ) = 3 from rfl]
      rw [show List.range' 1 3 = [1, 2, 3] from rfl]
      simp only [mapME, lget, List.get?, Except.bind, Bind.bind]
      rw [if_neg (by norm_num : ¬ ((2:ℝ) - 1 = 0)),
          if_neg (by norm_num : ¬ ((3:ℝ) - 1 = 0)),
          if_neg (by norm_num : ¬ ((4:ℝ) - 1 = 0))]
      simp only [Except.bind, Bind.bind, lget, List.get?, List.sum_cons,
        List.sum_nil, add_zero]
      rw [if_neg (by norm_num : ¬ ((3:ℝ) - 2 = 0)),
          if_neg (by norm_num : ¬ ((1:ℝ) + (2 + (3 + 4)) = 0))]
    have h4r := congrArg (Except.map (fun abc : ℝ × ℝ × ℝ =>
        [signif abc.1 4, signif abc.2.1 4, signif abc.2.2 4])) hcore4
    have h3r := congrArg (Except.map (fun abc : ℝ × ℝ × ℝ =>
        [signif abc.1 4, signif abc.2.1 4, signif abc.2.2 4])) hcore3
    simp only [Except.map] at h4r h3r
    refine ⟨_, _, h4r, h3r, ?_⟩
    simp only [List.get?]
    have hC4 : ((1/degCtoK 50 - 1/degCtoK 0)/((3:ℝ) - 1) -
          (1/degCtoK 25 - 1/degCtoK 0)/((2:ℝ) - 1)) / ((3:ℝ) - 2)/((1:ℝ) + (2 + (3 + 4)))
          = 500000/210537841347 := by
        unfold degCtoK
        norm_num
    have hC3 : ((1/degCtoK 50 - 1/degCtoK 0)/((3:ℝ) - 1) -
        (1/degCtoK 25 - 1/degCtoK 0)/((2:ℝ) - 1)) / ((3:ℝ) - 2) / ((1:ℝ) + (2 + 3))
        = 2500000/631613524041 := by
      unfold degCtoK
      norm_num
    rw [hC4, hC3]
    have hsig4 : signif ((500000:ℝ)/210537841347) 4 = (2375:ℝ) * (10:ℝ)^((-5:ℤ)-4) := by
      apply signif4_eq ((500000:ℝ)/210537841347) (-5) 2375
      · rw [show ((-5:ℤ)-1) = (-6:ℤ) from rfl]
        rw [show (10:ℝ)^(-6:ℤ) = 1/10^6 by norm_num]
        norm_num
      · rw [show (10:ℝ)^(-5:ℤ) = 1/10^5 by norm_num]
        norm_num
      · rw [show ((4:ℤ)-(-5)) = (9:ℤ) from rfl]
        rw [show (10:ℝ)^(9:ℤ) = 10^9 by norm_num]
        norm_num
      · rw [show ((4:ℤ)-(-5)) = (9:ℤ) from rfl]
        rw [show (10:ℝ)^(9:ℤ) = 10^9 by norm_num]
        norm_num
    have hsig3 : signif ((2500000:ℝ)/631613524041) 4 = (3958:ℝ) * (10:ℝ)^((-5:ℤ)-4) := by
      apply signif4_eq ((2500000:ℝ)/631613524041) (-5) 3958
      · rw [show ((-5:ℤ)-1) = (-6:ℤ) from rfl]
        rw [show (10:ℝ)^(-6:ℤ) = 1/10^6 by norm_num]
        norm_num
      · rw [show (10:ℝ)^(-5:ℤ) = 1/10^5 by norm_num]
        norm_num
      · rw [show ((4:ℤ)-(-5)) = (9:ℤ) from rfl]
        rw [show (10:ℝ)^(9:ℤ) = 10^9 by norm_num]
        norm_num
      · rw [show ((4:ℤ)-(-5)) = (9:ℤ) from rfl]
        rw [show (10:ℝ)^(9:ℤ) = 10^9 by norm_num]
        norm_num
    rw [hsig4, hsig3]
    rw [show ((-5:ℤ)-4) = (-9:ℤ) from rfl]
    rw [show (10:ℝ)^(-9:ℤ) = 1/10^9 by norm_num]
    intro hcontra
    rw [Option.some.injEq] at hcontra
    norm_num at hcontra

/-- Degree-9 Taylor polynomial of exp, used for rational bounds on exp and
log at the concrete inputs of the calibration claims. -/
noncomputable def expTaylor (t : ℝ) : ℝ := ∑ m ∈ Finset.range 10, t^m / m.factorial

theorem expTaylor_le_exp (t : ℝ) (h0 : 0 ≤ t) : expTaylor t ≤ Real.exp t :=
  Real.sum_le_exp_of_nonneg h0 10

theorem exp_le_expTaylor_add (t : ℝ) (h0 : 0 ≤ t) (h1 : t ≤ 1) :
    Real.exp t ≤ expTaylor t + t^10 * (11 / 36288000) := by
  have h := @Real.exp_bound' t h0 h1 10 (by norm_num)
  unfold expTaylor
  have e2 : t ^ 10 * ((10:ℕ) + 1) / ((Nat.factorial 10 : ℕ) * (10:ℕ))
      = t^10 * (11/36288000) := by
    rw [show ((Nat.factorial 10 : ℕ) : ℝ) = 3628800 by norm_num [Nat.factorial]]
    push_cast
    ring
  calc Real.exp t
      ≤ (∑ m ∈ Finset.range 10, t^m / m.factorial)
        + t ^ 10 * ((10:ℕ) + 1) / ((Nat.factorial 10 : ℕ) * (10:ℕ)) := by
        exact_mod_cast h
    _ = (∑ m ∈ Finset.range 10, t^m / m.factorial) + t^10 * (11/36288000) := by
        rw [e2]

theorem exp_16t_le (t U : ℝ) (h0 : 0 ≤ t) (h1 : t ≤ 1)
    (hU : expTaylor t + t^10 * (11 / 36288000) ≤ U) :
    Real.exp (16 * t) ≤ U^16 := by
  have he : Real.exp (16 * t) = (Real.exp t)^16 := by
    rw [show (16:ℝ) * t = ((16:ℕ):ℝ) * t by norm_num, Real.exp_nat_mul]
  rw [he]
  apply pow_le_pow_left₀ (Real.exp_nonneg t)
  exact (exp_le_expTaylor_add t h0 h1).trans hU

theorem le_exp_16t (t L : ℝ) (h0 : 0 ≤ t) (hL0 : 0 ≤ L) (hL : L ≤ expTaylor t) :
    L^16 ≤ Real.exp (16 * t) := by
  have he : Real.exp (16 * t) = (Real.exp t)^16 := by
    rw [show (16:ℝ) * t = ((16:ℕ):ℝ) * t by norm_num, Real.exp_nat_mul]
  rw [he]
  exact pow_le_pow_left₀ hL0 (hL.trans (expTaylor_le_exp t h0)) 16

set_option maxHeartbeats 2000000 in
theorem log_10000_bounds :
    (9.21034024 : ℝ) < Real.log 10000 ∧ Real.log 10000 < 9.210340496 := by
  constructor
  · rw [Real.lt_log_iff_exp_lt (by norm_num : (0:ℝ) < 10000)]
    have h := exp_16t_le (0.575646265) (expTaylor (0.575646265)
        + (0.575646265:ℝ)^10 * (11 / 36288000)) (by norm_num) (by norm_num) le_rfl
    rw [show (9.21034024:ℝ) = 16 * 0.575646265 by norm_num]
    apply lt_of_le_of_lt h
    unfold expTaylor
    rw [Finset.sum_range_succ, Finset.sum_range_succ, Finset.sum_range_succ,
        Finset.sum_range_succ, Finset.sum_range_succ, Finset.sum_range_succ,
        Finset.sum_range_succ, Finset.sum_range_succ, Finset.sum_range_succ,
        Finset.sum_range_succ, Finset.sum_range_zero]
    norm_num [Nat.factorial]
  · rw [Real.log_lt_iff_lt_exp (by norm_num : (0:ℝ) < 10000)]
    have h := le_exp_16t (0.575646281) (expTaylor (0.575646281)) (by norm_num)
        (by unfold expTaylor; positivity) le_rfl
    rw [show (9.210340496:ℝ) = 16 * 0.575646281 by norm_num]
    apply lt_of_lt_of_le ?_ h
    unfold expTaylor
    rw [Finset.sum_range_succ, Finset.sum_range_succ, Finset.sum_range_succ,
        Finset.sum_range_succ, Finset.sum_range_succ, Finset.sum_range_succ,
        Finset.sum_range_succ, Finset.sum_range_succ, Finset.sum_range_succ,
        Finset.sum_range_succ, Finset.sum_range_zero]
    norm_num [Nat.factorial]

set_option maxHeartbeats 2000000 in
theorem log_29490_bounds :
    (10.291806368 : ℝ) < Real.log 29490 ∧ Real.log 29490 < 10.291806624 := by
  constructor
  · rw [Real.lt_log_iff_exp_lt (by norm_num : (0:ℝ) < 29490)]
    have h := exp_16t_le (0.643237898) (expTaylor (0.643237898)
        + (0.643237898:ℝ)^10 * (11 / 36288000)) (by norm_num) (by norm_num) le_rfl
    rw [show (10.291806368:ℝ) = 16 * 0.643237898 by norm_num]
    apply lt_of_le_of_lt h
    unfold expTaylor
    rw [Finset.sum_range_succ, Finset.sum_range_succ, Finset.sum_range_succ,
        Finset.sum_range_succ, Finset.sum_range_succ, Finset.sum_range_succ,
        Finset.sum_range_succ, Finset.sum_range_succ, Finset.sum_range_succ,
        Finset.sum_range_succ, Finset.sum_range_zero]
    norm_num [Nat.factorial]
  · rw [Real.log_lt_iff_lt_exp (by norm_num : (0:ℝ) < 29490)]
    have h := le_exp_16t (0.643237914) (expTaylor (0.643237914)) (by norm_num)
        (by unfold expTaylor; positivity) le_rfl
    rw [show (10.291806624:ℝ) = 16 * 0.643237914 by norm_num]
    apply lt_of_lt_of_le ?_ h
    unfold expTaylor
    rw [Finset.sum_range_succ, Finset.sum_range_succ, Finset.sum_range_succ,
        Finset.sum_range_succ, Finset.sum_range_succ, Finset.sum_range_succ,
        Finset.sum_range_succ, Finset.sum_range_succ, Finset.sum_range_succ,
        Finset.sum_range_succ, Finset.sum_range_zero]
    norm_num [Nat.factorial]

set_option maxHeartbeats 2000000 in
theorem log_3893_bounds :
    (8.266935216 : ℝ) < Real.log 3893 ∧ Real.log 3893 < 8.266935472 := by
  constructor
  · rw [Real.lt_log_iff_exp_lt (by norm_num : (0:ℝ) < 3893)]
    have h := exp_16t_le (0.516683451) (expTaylor (0.516683451)
        + (0.516683451:ℝ)^10 * (11 / 36288000)) (by norm_num) (by norm_num) le_rfl
    rw [show (8.266935216:ℝ) = 16 * 0.516683451 by norm_num]
    apply lt_of_le_of_lt h
    unfold expTaylor
    rw [Finset.sum_range_succ, Finset.sum_range_succ, Finset.sum_range_succ,
        Finset.sum_range_succ, Finset.sum_range_succ, Finset.sum_range_succ,
        Finset.sum_range_succ, Finset.sum_range_succ, Finset.sum_range_succ,
        Finset.sum_range_succ, Finset.sum_range_zero]
    norm_num [Nat.factorial]
  · rw [Real.log_lt_iff_lt_exp (by norm_num : (0:ℝ) < 3893)]
    have h := le_exp_16t (0.516683467) (expTaylor (0.516683467)) (by norm_num)
        (by unfold expTaylor; positivity) le_rfl
    rw [show (8.266935472:ℝ) = 16 * 0.516683467 by norm_num]
    apply lt_of_lt_of_le ?_ h
    unfold expTaylor
    rw [Finset.sum_range_succ, Finset.sum_range_succ, Finset.sum_range_succ,
        Finset.sum_range_succ, Finset.sum_range_succ, Finset.sum_range_succ,
        Finset.sum_range_succ, Finset.sum_range_succ, Finset.sum_range_succ,
        Finset.sum_range_succ, Finset.sum_range_zero]
    norm_num [Nat.factorial]

theorem div_neg_bounds (num den lo hi : ℝ) (hd : den < 0)
    (hlo : num < lo * den) (hhi : hi * den < num) :
    lo < num / den ∧ num / den < hi :=
  ⟨(lt_div_iff_of_neg hd).mpr hlo, (div_lt_iff_of_neg hd).mpr hhi⟩

theorem div_pos_bounds (num den lo hi : ℝ) (hd : 0 < den)
    (hlo : lo * den < num) (hhi : num < hi * den) :
    lo < num / den ∧ num / den < hi :=
  ⟨(lt_div_iff₀ hd).mpr hlo, (div_lt_iff₀ hd).mpr hhi⟩

theorem mul_bounds_pos (x y lo1 hi1 lo2 hi2 : ℝ) (h1 : lo1 < x) (h2 : x < hi1)
    (h3 : lo2 < y) (h4 : y < hi2) (hp1 : 0 < lo1) (hp2 : 0 < lo2) :
    lo1 * lo2 < x * y ∧ x * y < hi1 * hi2 := by
  constructor
  · nlinarith
  · nlinarith

set_option maxHeartbeats 1600000 in
/-- C1: the fitter applied to temperatures [0, 25, 50] Celsius and resistances
[29490, 10000, 3893] ohms returns exactly the triple
(0.001029, 0.0002391, 1.566e-07): the returned components, which the source
rounds to 4 significant digits, agree with the documented values. -/
theorem claim_C1_fit_coefficients :
    ABCatRT [0,25,50] [29490,10000,3893]
      = Except.ok [(1029:ℝ)/10^6, (2391:ℝ)/10^7, (1566:ℝ)/10^10] := by
  obtain ⟨hL0a, hL0b⟩ := log_29490_bounds
  obtain ⟨hL1a, hL1b⟩ := log_10000_bounds
  obtain ⟨hL2a, hL2b⟩ := log_3893_bounds
  have hcore := ABCcore_three 0 25 50 29490 10000 3893
    (by norm_num) (by norm_num) (by norm_num)
    (by unfold degCtoK; norm_num) (by unfold degCtoK; norm_num)
    (by unfold degCtoK; norm_num)
    ((show Real.log 10000 - Real.log 29490 < 0 by linarith).ne)
    ((show Real.log 3893 - Real.log 29490 < 0 by linarith).ne)
    ((show Real.log 3893 - Real.log 10000 < 0 by linarith).ne)
    ((show (0:ℝ) < Real.log 29490 + (Real.log 10000 + Real.log 3893) by linarith).ne')
  rw [show (1:ℝ)/degCtoK 0 = 20/5463 by unfold degCtoK; norm_num,
      show (1:ℝ)/degCtoK 25 = 20/5963 by unfold degCtoK; norm_num,
      show (1:ℝ)/degCtoK 50 = 20/6463 by unfold degCtoK; norm_num] at hcore
  unfold ABCatRT
  rw [hcore]
  simp only [Except.map]
  set L0 := Real.log 29490 with hsL0
  set L1 := Real.log 10000 with hsL1
  set L2 := Real.log 3893 with hsL2
  set y0e := ((20:ℝ)/5963 - 20/5463)/(L1 - L0) with hy0e
  set y1e := ((20:ℝ)/6463 - 20/5463)/(L2 - L0) with hy1e
  set Ce := (y1e - y0e)/(L2 - L1)/(L0 + (L1 + L2)) with hCe
  set Be := y0e - Ce * (L0^2 + L0*L1 + L1^2) with hBe
  set Ae := (20:ℝ)/5463 - L0 * (Be + Ce * L0^2) with hAe
  have hy0B : (0.0002838513510248:ℝ) < y0e ∧ y0e < 0.0002838514854091 := by
    rw [hy0e]
    exact div_neg_bounds _ _ _ _ (by linarith) (by linarith) (by linarith)
  have hy1B : (0.0002797481294102:ℝ) < y1e ∧ y1e < 0.0002797482001462 := by
    rw [hy1e]
    exact div_neg_bounds _ _ _ _ (by linarith) (by linarith) (by linarith)
  have hinB : (0.000004349298191971:ℝ) < (y1e - y0e)/(L2 - L1) ∧
      (y1e - y0e)/(L2 - L1) < 0.000004349517977951 := by
    refine div_neg_bounds _ _ _ _ (by linarith) ?_ ?_
    · linarith [hy0B.1, hy0B.2, hy1B.1, hy1B.2]
    · linarith [hy0B.1, hy0B.2, hy1B.1, hy1B.2]
  have hCeB : (0.0000001566237623285:ℝ) < Ce ∧ Ce < 0.0000001566316814333 := by
    rw [hCe]
    refine div_pos_bounds _ _ _ _ (by linarith) ?_ ?_
    · linarith [hinB.1, hinB.2]
    · linarith [hinB.1, hinB.2]
  have hL0sqB : (105.9212783164:ℝ) < L0^2 ∧ L0^2 < 105.9212835859 := by
    constructor
    · nlinarith
    · nlinarith
  have hL1sqB : (84.8303673365:ℝ) < L1^2 ∧ L1^2 < 84.8303720523 := by
    constructor
    · nlinarith
    · nlinarith
  have hL01B : (94.7910383334:ℝ) < L0*L1 ∧ L0*L1 < 94.7910433261 := by
    constructor
    · nlinarith
    · nlinarith
  have hS2B : (285.5426839863:ℝ) < L0^2 + L0*L1 + L1^2 ∧
      L0^2 + L0*L1 + L1^2 < 285.5426989643 := by
    constructor
    · linarith [hL0sqB.1, hL01B.1, hL1sqB.1]
    · linarith [hL0sqB.2, hL01B.2, hL1sqB.2]
  have hPB := mul_bounds_pos Ce (L0^2 + L0*L1 + L1^2) _ _ _ _
    hCeB.1 hCeB.2 hS2B.1 hS2B.2 (by norm_num) (by norm_num)
  have hBeB : (0.0002391263179247:ℝ) < Be ∧ Be < 0.0002391287160092 := by
    rw [hBe]
    constructor
    · linarith [hy0B.1, hPB.2]
    · linarith [hy0B.2, hPB.1]
  have hCL0B := mul_bounds_pos Ce (L0^2) _ _ _ _
    hCeB.1 hCeB.2 hL0sqB.1 hL0sqB.2 (by norm_num) (by norm_num)
  have hTB : (0.0002557161070247:ℝ) < Be + Ce * L0^2 ∧
      Be + Ce * L0^2 < 0.0002557193448092 := by
    constructor
    · linarith [hBeB.1, hCL0B.1]
    · linarith [hBeB.2, hCL0B.2]
  have hLTB := mul_bounds_pos L0 (Be + Ce * L0^2) _ _ _ _
    hL0a hL0b hTB.1 hTB.2 (by norm_num) (by norm_num)
  have hAeB : (0.0010291780:ℝ) < Ae ∧ Ae < 0.0010292115 := by
    rw [hAe]
    constructor
    · linarith [hLTB.2]
    · linarith [hLTB.1]
  have hsC : signif Ce 4 = (1566:ℝ)/10^10 := by
    have h := signif4_eq Ce (-6) 1566 ?h1 ?h2 ?h3 ?h4
    case h1 =>
      rw [show ((-6:ℤ)-1) = (-7:ℤ) from rfl, show (10:ℝ)^(-7:ℤ) = 1/10^7 by norm_num]
      linarith [hCeB.1]
    case h2 =>
      rw [show (10:ℝ)^(-6:ℤ) = 1/10^6 by norm_num]
      linarith [hCeB.2]
    case h3 =>
      rw [show ((4:ℤ)-(-6)) = (10:ℤ) from rfl, show (10:ℝ)^(10:ℤ) = 10^10 by norm_num]
      push_cast
      linarith [hCeB.1]
    case h4 =>
      rw [show ((4:ℤ)-(-6)) = (10:ℤ) from rfl, show (10:ℝ)^(10:ℤ) = 10^10 by norm_num]
      push_cast
      linarith [hCeB.2]
    rw [h, show ((-6:ℤ)-4) = (-10:ℤ) from rfl,
        show (10:ℝ)^(-10:ℤ) = 1/10^10 by norm_num]
    push_cast
    ring
  have hsB : signif Be 4 = (2391:ℝ)/10^7 := by
    have h := signif4_eq Be (-3) 2391 ?h1 ?h2 ?h3 ?h4
    case h1 =>
      rw [show ((-3:ℤ)-1) = (-4:ℤ) from rfl, show (10:ℝ)^(-4:ℤ) = 1/10^4 by norm_num]
      linarith [hBeB.1]
    case h2 =>
      rw [show (10:ℝ)^(-3:ℤ) = 1/10^3 by norm_num]
      linarith [hBeB.2]
    case h3 =>
      rw [show ((4:ℤ)-(-3)) = (7:ℤ) from rfl, show (10:ℝ)^(7:ℤ) = 10^7 by norm_num]
      push_cast
      linarith [hBeB.1]
    case h4 =>
      rw [show ((4:ℤ)-(-3)) = (7:ℤ) from rfl, show (10:ℝ)^(7:ℤ) = 10^7 by norm_num]
      push_cast
      linarith [hBeB.2]
    rw [h, show ((-3:ℤ)-4) = (-7:ℤ) from rfl,
        show (10:ℝ)^(-7:ℤ) = 1/10^7 by norm_num]
    push_cast
    ring
  have hsA : signif Ae 4 = (1029:ℝ)/10^6 := by
    have h := signif4_eq Ae (-2) 1029 ?h1 ?h2 ?h3 ?h4
    case h1 =>
      rw [show ((-2:ℤ)-1) = (-3:ℤ) from rfl, show (10:ℝ)^(-3:ℤ) = 1/10^3 by norm_num]
      linarith [hAeB.1]
    case h2 =>
      rw [show (10:ℝ)^(-2:ℤ) = 1/10^2 by norm_num]
      linarith [hAeB.2]
    case h3 =>
      rw [show ((4:ℤ)-(-2)) = (6:ℤ) from rfl, show (10:ℝ)^(6:ℤ) = 10^6 by norm_num]
      push_cast
      linarith [hAeB.1]
    case h4 =>
      rw [show ((4:ℤ)-(-2)) = (6:ℤ) from rfl, show (10:ℝ)^(6:ℤ) = 10^6 by norm_num]
      push_cast
      linarith [hAeB.2]
    rw [h, show ((-2:ℤ)-4) = (-6:ℤ) from rfl,
        show (10:ℝ)^(-6:ℤ) = 1/10^6 by norm_num]
    push_cast
    ring
  rw [hsA, hsB, hsC]

theorem rpow_third_bounds (x c d : ℝ) (hc : 0 < c) (h1 : c^3 < x) (h2 : x < d^3) :
    c < x^((1:ℝ)/3) ∧ x^((1:ℝ)/3) < d := by
  have hx : 0 < x := lt_trans (by positivity) h1
  have hd : 0 < d := by nlinarith [sq_nonneg d]
  have ec : ((c^(3:ℕ) : ℝ))^((1:ℝ)/3) = c := by
    rw [← Real.rpow_natCast c 3, ← Real.rpow_mul hc.le]
    norm_num
  have ed : ((d^(3:ℕ) : ℝ))^((1:ℝ)/3) = d := by
    rw [← Real.rpow_natCast d 3, ← Real.rpow_mul hd.le]
    norm_num
  constructor
  · calc c = ((c^(3:ℕ) : ℝ))^((1:ℝ)/3) := ec.symm
    _ < x^((1:ℝ)/3) := Real.rpow_lt_rpow (by positivity) h1 (by norm_num)
  · calc x^((1:ℝ)/3) < ((d^(3:ℕ) : ℝ))^((1:ℝ)/3) :=
        Real.rpow_lt_rpow hx.le h2 (by norm_num)
    _ = d := ed

set_option maxHeartbeats 4000000 in
theorem Rt_fromTC_ABC_at_0 :
    Rt_fromTC_ABC 0 ((1029:ℝ)/10^6) ((2391:ℝ)/10^7) ((1566:ℝ)/10^10)
      = Except.ok 29542 := by
  have hyv : shY 0 ((1029:ℝ)/10^6) ((1566:ℝ)/10^10) = -35946432500/4277529 := by
    unfold shY degCtoK
    norm_num
  have hs1 : (14228.32551986:ℝ)
      < Real.sqrt (shRad 0 ((1029:ℝ)/10^6) ((2391:ℝ)/10^7) ((1566:ℝ)/10^10)) := by
    apply (Real.lt_sqrt (by norm_num)).mpr
    unfold shRad shY degCtoK
    norm_num
  have hs2 : Real.sqrt (shRad 0 ((1029:ℝ)/10^6) ((2391:ℝ)/10^7) ((1566:ℝ)/10^10))
      < 14228.32551988 := by
    apply (Real.sqrt_lt' (by norm_num)).mpr
    unfold shRad shY degCtoK
    norm_num
  have hxB : (5824.774661:ℝ) < shX 0 ((1029:ℝ)/10^6) ((2391:ℝ)/10^7) ((1566:ℝ)/10^10) ∧
      shX 0 ((1029:ℝ)/10^6) ((2391:ℝ)/10^7) ((1566:ℝ)/10^10) < 5824.774662 := by
    unfold shX
    rw [hyv]
    constructor
    · linarith
    · linarith
  have hx13B := rpow_third_bounds
    (shX 0 ((1029:ℝ)/10^6) ((2391:ℝ)/10^7) ((1566:ℝ)/10^10))
    17.992563451 17.992563454 (by norm_num)
    (by nlinarith [hxB.1]) (by nlinarith [hxB.2])
  have hx13lo : (17.992563451:ℝ) < shX13 0 ((1029:ℝ)/10^6) ((2391:ℝ)/10^7) ((1566:ℝ)/10^10) := by
    unfold shX13
    exact hx13B.1
  have hx13hi : shX13 0 ((1029:ℝ)/10^6) ((2391:ℝ)/10^7) ((1566:ℝ)/10^10) < 17.992563454 := by
    unfold shX13
    exact hx13B.2
  have hx13pos : (0:ℝ) < shX13 0 ((1029:ℝ)/10^6) ((2391:ℝ)/10^7) ((1566:ℝ)/10^10) := by
    linarith [hx13lo]
  have hlnB : (10.293565728:ℝ)
        < shLnR 0 ((1029:ℝ)/10^6) ((2391:ℝ)/10^7) ((1566:ℝ)/10^10) ∧
      shLnR 0 ((1029:ℝ)/10^6) ((2391:ℝ)/10^7) ((1566:ℝ)/10^10) < 10.29356576 := by
    have hden : (0:ℝ) < 3*((1566:ℝ)/10^10)*shX13 0 ((1029:ℝ)/10^6) ((2391:ℝ)/10^7) ((1566:ℝ)/10^10) := by
      have h3 : (0:ℝ) < 3*((1566:ℝ)/10^10) := by norm_num
      exact mul_pos h3 hx13pos
    have hb1 : (2391:ℝ)/10^7/(3*((1566:ℝ)/10^10)*17.992563454)
        < (2391:ℝ)/10^7/(3*((1566:ℝ)/10^10)*shX13 0 ((1029:ℝ)/10^6) ((2391:ℝ)/10^7) ((1566:ℝ)/10^10)) := by
      rw [div_lt_div_iff_of_pos_left (by norm_num) (by norm_num) hden]
      nlinarith [hx13hi]
    have hb2 : (2391:ℝ)/10^7/(3*((1566:ℝ)/10^10)*shX13 0 ((1029:ℝ)/10^6) ((2391:ℝ)/10^7) ((1566:ℝ)/10^10))
        < (2391:ℝ)/10^7/(3*((1566:ℝ)/10^10)*17.992563451) := by
      rw [div_lt_div_iff_of_pos_left (by norm_num) hden (by norm_num)]
      nlinarith [hx13lo]
    unfold shLnR
    constructor
    · have e1 : (10.293565728:ℝ)
          ≤ (2391:ℝ)/10^7/(3*((1566:ℝ)/10^10)*17.992563454) - 17.992563454 := by
        norm_num
      linarith [hb1, hx13hi]
    · have e2 : (2391:ℝ)/10^7/(3*((1566:ℝ)/10^10)*17.992563451) - 17.992563451
          ≤ (10.29356576:ℝ) := by
        norm_num
      linarith [hb2, hx13lo]
  have hexpLo : (29541.5:ℝ)
      < Real.exp (shLnR 0 ((1029:ℝ)/10^6) ((2391:ℝ)/10^7) ((1566:ℝ)/10^10)) := by
    have h1 : Real.exp 10.293565728
        < Real.exp (shLnR 0 ((1029:ℝ)/10^6) ((2391:ℝ)/10^7) ((1566:ℝ)/10^10)) :=
      Real.exp_lt_exp.mpr hlnB.1
    have h2 := le_exp_16t 0.643347858 (expTaylor 0.643347858) (by norm_num)
      (by unfold expTaylor; positivity) le_rfl
    rw [show (16:ℝ) * 0.643347858 = 10.293565728 by norm_num] at h2
    have h3 : (29541.5:ℝ) < (expTaylor 0.643347858)^16 := by
      unfold expTaylor
      rw [Finset.sum_range_succ, Finset.sum_range_succ, Finset.sum_range_succ,
          Finset.sum_range_succ, Finset.sum_range_succ, Finset.sum_range_succ,
          Finset.sum_range_succ, Finset.sum_range_succ, Finset.sum_range_succ,
          Finset.sum_range_succ, Finset.sum_range_zero]
      norm_num [Nat.factorial]
    linarith
  have hexpHi : Real.exp (shLnR 0 ((1029:ℝ)/10^6) ((2391:ℝ)/10^7) ((1566:ℝ)/10^10))
      < 29542.5 := by
    have h1 : Real.exp (shLnR 0 ((1029:ℝ)/10^6) ((2391:ℝ)/10^7) ((1566:ℝ)/10^10))
        < Real.exp 10.29356576 := Real.exp_lt_exp.mpr hlnB.2
    have h2 := exp_16t_le 0.64334786 (expTaylor 0.64334786
        + (0.64334786:ℝ)^10 * (11 / 36288000)) (by norm_num) (by norm_num) le_rfl
    rw [show (16:ℝ) * 0.64334786 = 10.29356576 by norm_num] at h2
    have h3 : (expTaylor 0.64334786 + (0.64334786:ℝ)^10 * (11 / 36288000))^16
        < 29542.5 := by
      unfold expTaylor
      rw [Finset.sum_range_succ, Finset.sum_range_succ, Finset.sum_range_succ,
          Finset.sum_range_succ, Finset.sum_range_succ, Finset.sum_range_succ,
          Finset.sum_range_succ, Finset.sum_range_succ, Finset.sum_range_succ,
          Finset.sum_range_succ, Finset.sum_range_zero]
      norm_num [Nat.factorial]
    linarith
  unfold Rt_fromTC_ABC
  rw [if_neg (by unfold degCtoK; norm_num),
      if_neg (by norm_num : ¬ ((1566:ℝ)/10^10 = 0)),
      if_neg (by
        apply not_lt.mpr
        unfold shRad shY degCtoK
        positivity),
      if_neg (by
        apply not_lt.mpr
        have := hxB.1
        linarith),
      if_neg (by
        have h3 : (0:ℝ) < 3*((1566:ℝ)/10^10) := by norm_num
        exact (mul_pos h3 hx13pos).ne')]
  congr 1
  apply rhe_eq_of_bounds
  · push_cast
    linarith [hexpLo]
  · push_cast
    linarith [hexpHi]

set_option maxHeartbeats 4000000 in
theorem Rt_fromTC_ABC_at_25 :
    Rt_fromTC_ABC 25 ((1029:ℝ)/10^6) ((2391:ℝ)/10^7) ((1566:ℝ)/10^10)
      = Except.ok 10017 := by
  have hyv : shY 25 ((1029:ℝ)/10^6) ((1566:ℝ)/10^10) = -34660182500/4669029 := by
    unfold shY degCtoK
    norm_num
  have hs1 : (13672.33724525:ℝ)
      < Real.sqrt (shRad 25 ((1029:ℝ)/10^6) ((2391:ℝ)/10^7) ((1566:ℝ)/10^10)) := by
    apply (Real.lt_sqrt (by norm_num)).mpr
    unfold shRad shY degCtoK
    norm_num
  have hs2 : Real.sqrt (shRad 25 ((1029:ℝ)/10^6) ((2391:ℝ)/10^7) ((1566:ℝ)/10^10))
      < 13672.33724528 := by
    apply (Real.sqrt_lt' (by norm_num)).mpr
    unfold shRad shY degCtoK
    norm_num
  have hxB : (6248.913124:ℝ) < shX 25 ((1029:ℝ)/10^6) ((2391:ℝ)/10^7) ((1566:ℝ)/10^10) ∧
      shX 25 ((1029:ℝ)/10^6) ((2391:ℝ)/10^7) ((1566:ℝ)/10^10) < 6248.913125 := by
    unfold shX
    rw [hyv]
    constructor
    · linarith
    · linarith
  have hx13B := rpow_third_bounds
    (shX 25 ((1029:ℝ)/10^6) ((2391:ℝ)/10^7) ((1566:ℝ)/10^10))
    18.419089674 18.419089677 (by norm_num)
    (by nlinarith [hxB.1]) (by nlinarith [hxB.2])
  have hx13lo : (18.419089674:ℝ) < shX13 25 ((1029:ℝ)/10^6) ((2391:ℝ)/10^7) ((1566:ℝ)/10^10) := by
    unfold shX13
    exact hx13B.1
  have hx13hi : shX13 25 ((1029:ℝ)/10^6) ((2391:ℝ)/10^7) ((1566:ℝ)/10^10) < 18.419089677 := by
    unfold shX13
    exact hx13B.2
  have hx13pos : (0:ℝ) < shX13 25 ((1029:ℝ)/10^6) ((2391:ℝ)/10^7) ((1566:ℝ)/10^10) := by
    linarith [hx13lo]
  have hlnB : (9.212024736:ℝ)
        < shLnR 25 ((1029:ℝ)/10^6) ((2391:ℝ)/10^7) ((1566:ℝ)/10^10) ∧
      shLnR 25 ((1029:ℝ)/10^6) ((2391:ℝ)/10^7) ((1566:ℝ)/10^10) < 9.212024768 := by
    have hden : (0:ℝ) < 3*((1566:ℝ)/10^10)*shX13 25 ((1029:ℝ)/10^6) ((2391:ℝ)/10^7) ((1566:ℝ)/10^10) := by
      have h3 : (0:ℝ) < 3*((1566:ℝ)/10^10) := by norm_num
      exact mul_pos h3 hx13pos
    have hb1 : (2391:ℝ)/10^7/(3*((1566:ℝ)/10^10)*18.419089677)
        < (2391:ℝ)/10^7/(3*((1566:ℝ)/10^10)*shX13 25 ((1029:ℝ)/10^6) ((2391:ℝ)/10^7) ((1566:ℝ)/10^10)) := by
      rw [div_lt_div_iff_of_pos_left (by norm_num) (by norm_num) hden]
      nlinarith [hx13hi]
    have hb2 : (2391:ℝ)/10^7/(3*((1566:ℝ)/10^10)*shX13 25 ((1029:ℝ)/10^6) ((2391:ℝ)/10^7) ((1566:ℝ)/10^10))
        < (2391:ℝ)/10^7/(3*((1566:ℝ)/10^10)*18.419089674) := by
      rw [div_lt_div_iff_of_pos_left (by norm_num) hden (by norm_num)]
      nlinarith [hx13lo]
    unfold shLnR
    constructor
    · have e1 : (9.212024736:ℝ)
          ≤ (2391:ℝ)/10^7/(3*((1566:ℝ)/10^10)*18.419089677) - 18.419089677 := by
        norm_num
      linarith [hb1, hx13hi]
    · have e2 : (2391:ℝ)/10^7/(3*((1566:ℝ)/10^10)*18.419089674) - 18.419089674
          ≤ (9.212024768:ℝ) := by
        norm_num
      linarith [hb2, hx13lo]
  have hexpLo : (10016.5:ℝ)
      < Real.exp (shLnR 25 ((1029:ℝ)/10^6) ((2391:ℝ)/10^7) ((1566:ℝ)/10^10)) := by
    have h1 : Real.exp 9.212024736
        < Real.exp (shLnR 25 ((1029:ℝ)/10^6) ((2391:ℝ)/10^7) ((1566:ℝ)/10^10)) :=
      Real.exp_lt_exp.mpr hlnB.1
    have h2 := le_exp_16t 0.575751546 (expTaylor 0.575751546) (by norm_num)
      (by unfold expTaylor; positivity) le_rfl
    rw [show (16:ℝ) * 0.575751546 = 9.212024736 by norm_num] at h2
    have h3 : (10016.5:ℝ) < (expTaylor 0.575751546)^16 := by
      unfold expTaylor
      rw [Finset.sum_range_succ, Finset.sum_range_succ, Finset.sum_range_succ,
          Finset.sum_range_succ, Finset.sum_range_succ, Finset.sum_range_succ,
          Finset.sum_range_succ, Finset.sum_range_succ, Finset.sum_range_succ,
          Finset.sum_range_succ, Finset.sum_range_zero]
      norm_num [Nat.factorial]
    linarith
  have hexpHi : Real.exp (shLnR 25 ((1029:ℝ)/10^6) ((2391:ℝ)/10^7) ((1566:ℝ)/10^10))
      < 10017.5 := by
    have h1 : Real.exp (shLnR 25 ((1029:ℝ)/10^6) ((2391:ℝ)/10^7) ((1566:ℝ)/10^10))
        < Real.exp 9.212024768 := Real.exp_lt_exp.mpr hlnB.2
    have h2 := exp_16t_le 0.575751548 (expTaylor 0.575751548
        + (0.575751548:ℝ)^10 * (11 / 36288000)) (by norm_num) (by norm_num) le_rfl
    rw [show (16:ℝ) * 0.575751548 = 9.212024768 by norm_num] at h2
    have h3 : (expTaylor 0.575751548 + (0.575751548:ℝ)^10 * (11 / 36288000))^16
        < 10017.5 := by
      unfold expTaylor
      rw [Finset.sum_range_succ, Finset.sum_range_succ, Finset.sum_range_succ,
          Finset.sum_range_succ, Finset.sum_range_succ, Finset.sum_range_succ,
          Finset.sum_range_succ, Finset.sum_range_succ, Finset.sum_range_succ,
          Finset.sum_range_succ, Finset.sum_range_zero]
      norm_num [Nat.factorial]
    linarith
  unfold Rt_fromTC_ABC
  rw [if_neg (by unfold degCtoK; norm_num),
      if_neg (by norm_num : ¬ ((1566:ℝ)/10^10 = 0)),
      if_neg (by
        apply not_lt.mpr
        unfold shRad shY degCtoK
        positivity),
      if_neg (by
        apply not_lt.mpr
        have := hxB.1
        linarith),
      if_neg (by
        have h3 : (0:ℝ) < 3*((1566:ℝ)/10^10) := by norm_num
        exact (mul_pos h3 hx13pos).ne')]
  congr 1
  apply rhe_eq_of_bounds
  · push_cast
    linarith [hexpLo]
  · push_cast
    linarith [hexpHi]


set_option maxHeartbeats 4000000 in
theorem Rt_fromTC_ABC_at_50 :
    Rt_fromTC_ABC 50 ((1029:ℝ)/10^6) ((2391:ℝ)/10^7) ((1566:ℝ)/10^10)
      = Except.ok 3899 := by
  have hyv : shY 50 ((1029:ℝ)/10^6) ((1566:ℝ)/10^10) = -33373932500/5060529 := by
    unfold shY degCtoK
    norm_num
  have hs1 : (13240.80575932:ℝ)
      < Real.sqrt (shRad 50 ((1029:ℝ)/10^6) ((2391:ℝ)/10^7) ((1566:ℝ)/10^10)) := by
    apply (Real.lt_sqrt (by norm_num)).mpr
    unfold shRad shY degCtoK
    norm_num
  have hs2 : Real.sqrt (shRad 50 ((1029:ℝ)/10^6) ((2391:ℝ)/10^7) ((1566:ℝ)/10^10))
      < 13240.80575934 := by
    apply (Real.sqrt_lt' (by norm_num)).mpr
    unfold shRad shY degCtoK
    norm_num
  have hxB : (6645.856397:ℝ) < shX 50 ((1029:ℝ)/10^6) ((2391:ℝ)/10^7) ((1566:ℝ)/10^10) ∧
      shX 50 ((1029:ℝ)/10^6) ((2391:ℝ)/10^7) ((1566:ℝ)/10^10) < 6645.856398 := by
    unfold shX
    rw [hyv]
    constructor
    · linarith
    · linarith
  have hx13B := rpow_third_bounds
    (shX 50 ((1029:ℝ)/10^6) ((2391:ℝ)/10^7) ((1566:ℝ)/10^10))
    18.801116951 18.801116954 (by norm_num)
    (by nlinarith [hxB.1]) (by nlinarith [hxB.2])
  have hx13lo : (18.801116951:ℝ) < shX13 50 ((1029:ℝ)/10^6) ((2391:ℝ)/10^7) ((1566:ℝ)/10^10) := by
    unfold shX13
    exact hx13B.1
  have hx13hi : shX13 50 ((1029:ℝ)/10^6) ((2391:ℝ)/10^7) ((1566:ℝ)/10^10) < 18.801116954 := by
    unfold shX13
    exact hx13B.2
  have hx13pos : (0:ℝ) < shX13 50 ((1029:ℝ)/10^6) ((2391:ℝ)/10^7) ((1566:ℝ)/10^10) := by
    linarith [hx13lo]
  have hlnB : (8.26855:ℝ)
        < shLnR 50 ((1029:ℝ)/10^6) ((2391:ℝ)/10^7) ((1566:ℝ)/10^10) ∧
      shLnR 50 ((1029:ℝ)/10^6) ((2391:ℝ)/10^7) ((1566:ℝ)/10^10) < 8.268550016 := by
    have hden : (0:ℝ) < 3*((1566:ℝ)/10^10)*shX13 50 ((1029:ℝ)/10^6) ((2391:ℝ)/10^7) ((1566:ℝ)/10^10) := by
      have h3 : (0:ℝ) < 3*((1566:ℝ)/10^10) := by norm_num
      exact mul_pos h3 hx13pos
    have hb1 : (2391:ℝ)/10^7/(3*((1566:ℝ)/10^10)*18.801116954)
        < (2391:ℝ)/10^7/(3*((1566:ℝ)/10^10)*shX13 50 ((1029:ℝ)/10^6) ((2391:ℝ)/10^7) ((1566:ℝ)/10^10)) := by
      rw [div_lt_div_iff_of_pos_left (by norm_num) (by norm_num) hden]
      nlinarith [hx13hi]
    have hb2 : (2391:ℝ)/10^7/(3*((1566:ℝ)/10^10)*shX13 50 ((1029:ℝ)/10^6) ((2391:ℝ)/10^7) ((1566:ℝ)/10^10))
        < (2391:ℝ)/10^7/(3*((1566:ℝ)/10^10)*18.801116951) := by
      rw [div_lt_div_iff_of_pos_left (by norm_num) hden (by norm_num)]
      nlinarith [hx13lo]
    unfold shLnR
    constructor
    · have e1 : (8.26855:ℝ)
          ≤ (2391:ℝ)/10^7/(3*((1566:ℝ)/10^10)*18.801116954) - 18.801116954 := by
        norm_num
      linarith [hb1, hx13hi]
    · have e2 : (2391:ℝ)/10^7/(3*((1566:ℝ)/10^10)*18.801116951) - 18.801116951
          ≤ (8.268550016:ℝ) := by
        norm_num
      linarith [hb2, hx13lo]
  have hexpLo : (3898.5:ℝ)
      < Real.exp (shLnR 50 ((1029:ℝ)/10^6) ((2391:ℝ)/10^7) ((1566:ℝ)/10^10)) := by
    have h1 : Real.exp 8.26855
        < Real.exp (shLnR 50 ((1029:ℝ)/10^6) ((2391:ℝ)/10^7) ((1566:ℝ)/10^10)) :=
      Real.exp_lt_exp.mpr hlnB.1
    have h2 := le_exp_16t 0.516784375 (expTaylor 0.516784375) (by norm_num)
      (by unfold expTaylor; positivity) le_rfl
    rw [show (16:ℝ) * 0.516784375 = 8.26855 by norm_num] at h2
    have h3 : (3898.5:ℝ) < (expTaylor 0.516784375)^16 := by
      unfold expTaylor
      rw [Finset.sum_range_succ, Finset.sum_range_succ, Finset.sum_range_succ,
          Finset.sum_range_succ, Finset.sum_range_succ, Finset.sum_range_succ,
          Finset.sum_range_succ, Finset.sum_range_succ, Finset.sum_range_succ,
          Finset.sum_range_succ, Finset.sum_range_zero]
      norm_num [Nat.factorial]
    linarith
  have hexpHi : Real.exp (shLnR 50 ((1029:ℝ)/10^6) ((2391:ℝ)/10^7) ((1566:ℝ)/10^10))
      < 3899.5 := by
    have h1 : Real.exp (shLnR 50 ((1029:ℝ)/10^6) ((2391:ℝ)/10^7) ((1566:ℝ)/10^10))
        < Real.exp 8.268550016 := Real.exp_lt_exp.mpr hlnB.2
    have h2 := exp_16t_le 0.516784376 (expTaylor 0.516784376
        + (0.516784376:ℝ)^10 * (11 / 36288000)) (by norm_num) (by norm_num) le_rfl
    rw [show (16:ℝ) * 0.516784376 = 8.268550016 by norm_num] at h2
    have h3 : (expTaylor 0.516784376 + (0.516784376:ℝ)^10 * (11 / 36288000))^16
        < 3899.5 := by
      unfold expTaylor
      rw [Finset.sum_range_succ, Finset.sum_range_succ, Finset.sum_range_succ,
          Finset.sum_range_succ, Finset.sum_range_succ, Finset.sum_range_succ,
          Finset.sum_range_succ, Finset.sum_range_succ, Finset.sum_range_succ,
          Finset.sum_range_succ, Finset.sum_range_zero]
      norm_num [Nat.factorial]
    linarith
  unfold Rt_fromTC_ABC
  rw [if_neg (by unfold degCtoK; norm_num),
      if_neg (by norm_num : ¬ ((1566:ℝ)/10^10 = 0)),
      if_neg (by
        apply not_lt.mpr
        unfold shRad shY degCtoK
        positivity),
      if_neg (by
        apply not_lt.mpr
        have := hxB.1
        linarith),
      if_neg (by
        have h3 : (0:ℝ) < 3*((1566:ℝ)/10^10) := by norm_num
        exact (mul_pos h3 hx13pos).ne')]
  congr 1
  apply rhe_eq_of_bounds
  · push_cast
    linarith [hexpLo]
  · push_cast
    linarith [hexpHi]


/-- C2 (amended): the inverse model at [0, 25, 50] Celsius with the rounded
coefficients A = 0.001029, B = 0.0002391, C = 1.566e-07 returns
[29542, 10017, 3899] ohms, the values documented in the source, each within
plus or minus one ohm of [29542, 10017, 3899]. -/
theorem claim_C2_amended :
    Rt_fromTC_ABCv [0,25,50] ((1029:ℝ)/10^6) ((2391:ℝ)/10^7) ((1566:ℝ)/10^10)
      = Except.ok [29542, 10017, 3899] := by
  unfold Rt_fromTC_ABCv
  simp only [mapME, Rt_fromTC_ABC_at_0, Rt_fromTC_ABC_at_25, Rt_fromTC_ABC_at_50,
    Except.bind, Bind.bind]

/-- C2 (counterexample): the inverse model at 25 Celsius with the rounded
coefficients returns 10017 ohms, which is 17 ohms away from the 10000 ohms
the claim expects, violating the plus-or-minus-one-ohm tolerance. -/
theorem claim_C2_counterexample :
    Rt_fromTC_ABC 25 ((1029:ℝ)/10^6) ((2391:ℝ)/10^7) ((1566:ℝ)/10^10)
      = Except.ok 10017 ∧
    ¬ (|(10017:ℤ) - 10000| ≤ 1) :=
  ⟨Rt_fromTC_ABC_at_25, by decide⟩

end Thermistors
